import Mathlib

/-!
Verification of the FrappeCampaign client-side event tracker.

This file gives a shallow embedding of the "Client Tracker" script
(`campaign_management/public/js/client_tracker.js`, called "v1" below, and
the second tracker variant shipped in the repository, called "v2" below;
the two differ in the configuration key name, the sensitive-field denylist,
and whether form fields are normalized) and proves properties of the
embedded definitions.

JavaScript objects are modelled as association lists of key/value pairs in
insertion order; a later binding for the same key shadows an earlier one,
which models both property assignment (`o[k] = v` appends a binding) and
object spread (`{...a, ...b}` is list append).  JavaScript values that
matter here are strings and `undefined`.
-/

namespace ClientTracker

set_option maxRecDepth 40000

/-- A JavaScript value as used by the tracker: a string or `undefined`. -/
inductive JsVal where
  | undefined : JsVal
  | str : String → JsVal
deriving DecidableEq, Repr

/-- A JavaScript object: bindings in insertion order, later bindings shadow
earlier ones. -/
abbrev Obj := List (String × JsVal)

/-- Property lookup: the value of the *last* binding of `k`, or `none` when
the key is absent (JS: `k in o` is false). -/
def jsGet : Obj → String → Option JsVal
  | [], _ => none
  | (k', v) :: rest, k =>
    match jsGet rest k with
    | some w => some w
    | none => if k' == k then some v else none

/-- Property access `o.k`: `undefined` when the key is absent. -/
def getProp (o : Obj) (k : String) : JsVal := (jsGet o k).getD .undefined

/-- Property assignment `o[k] = v` (appends a shadowing binding). -/
def setProp (o : Obj) (k : String) (v : JsVal) : Obj := o ++ [(k, v)]

/-- JavaScript truthiness restricted to the values we model: `undefined`
and the empty string are falsy. -/
def truthy : JsVal → Bool
  | .undefined => false
  | .str s => s ≠ ""

/-- JavaScript `a || b` on values. -/
def jsOr (a b : JsVal) : JsVal := if truthy a then a else b

/-- JavaScript `a || b` on strings (empty string is falsy). -/
def strOr (a b : String) : String := if a = "" then b else a

theorem jsGet_cons (k' : String) (v : JsVal) (o : Obj) (k : String) :
    jsGet ((k', v) :: o) k =
      match jsGet o k with
      | some w => some w
      | none => if k' == k then some v else none := by
  rfl

theorem jsGet_cons_ne (k' : String) (v : JsVal) (o : Obj) (k : String)
    (h : k' ≠ k) : jsGet ((k', v) :: o) k = jsGet o k := by
  rw [jsGet_cons]
  cases jsGet o k <;> simp [h]

theorem jsGet_append (a b : Obj) (k : String) :
    jsGet (a ++ b) k =
      match jsGet b k with
      | some w => some w
      | none => jsGet a k := by
  induction a with
  | nil => cases h : jsGet b k <;> simp [jsGet, h]
  | cons hd tl ih =>
    obtain ⟨k', v⟩ := hd
    rw [List.cons_append, jsGet_cons, ih, jsGet_cons]
    cases jsGet b k <;> cases jsGet tl k <;> simp

theorem jsGet_setProp (o : Obj) (k' : String) (v : JsVal) (k : String) :
    jsGet (setProp o k' v) k = if k' == k then some v else jsGet o k := by
  rw [setProp, jsGet_append]
  show (match (if k' == k then some v else none : Option JsVal) with
        | some w => some w
        | none => jsGet o k) = _
  by_cases h : k' == k <;> simp [h]

theorem jsGet_none_of_fst_not_mem (o : Obj) (k : String)
    (h : k ∉ o.map Prod.fst) : jsGet o k = none := by
  induction o with
  | nil => rfl
  | cons hd tl ih =>
    obtain ⟨k', v⟩ := hd
    simp only [List.map_cons, List.mem_cons] at h
    push_neg at h
    rw [jsGet_cons_ne _ _ _ _ (fun e => h.1 e.symm), ih h.2]

/-! ## Attribution record and ad-platform classification

Source: `readParams`, the `tracking` initialization and `detectAds` in the
tracker (identical in v1 and v2). -/

/-- The attribution record: UTM parameters plus ad click identifiers.
Field order matches the object literal returned by `readParams`. -/
structure TrackingRecord where
  utm_source : String
  utm_medium : String
  utm_campaign : String
  utm_term : String
  utm_content : String
  utm_campaign_id : String
  fbclid : String
  gclid : String
  msclkid : String
  li_fat_id : String
deriving DecidableEq, Repr

/-- The all-empty attribution record. -/
def emptyTracking : TrackingRecord := ⟨"", "", "", "", "", "", "", "", "", ""⟩

/-- `new URLSearchParams(location.search).get(k) || ''`: the first value of
parameter `k`, or the empty string when absent or empty. -/
def getQ (q : List (String × String)) (k : String) : String :=
  match q.find? (fun p => p.1 == k) with
  | some p => p.2
  | none => ""

/-- `readParams()` from the tracker: reads the recognized query parameters
(note `utm_campaign_id` is read from the `utm_id` parameter). -/
def readParams (q : List (String × String)) : TrackingRecord :=
  { utm_source := getQ q "utm_source"
    utm_medium := getQ q "utm_medium"
    utm_campaign := getQ q "utm_campaign"
    utm_term := getQ q "utm_term"
    utm_content := getQ q "utm_content"
    utm_campaign_id := getQ q "utm_id"
    fbclid := getQ q "fbclid"
    gclid := getQ q "gclid"
    msclkid := getQ q "msclkid"
    li_fat_id := getQ q "li_fat_id" }

/-- `Object.values(tracking).some(Boolean)`: at least one field non-empty. -/
def hasAnyTracking (t : TrackingRecord) : Bool :=
  t.utm_source ≠ "" || t.utm_medium ≠ "" || t.utm_campaign ≠ "" ||
  t.utm_term ≠ "" || t.utm_content ≠ "" || t.utm_campaign_id ≠ "" ||
  t.fbclid ≠ "" || t.gclid ≠ "" || t.msclkid ≠ "" || t.li_fat_id ≠ ""

/-- The ad-platform classification returned by `detectAds`. -/
structure AdInfo where
  ad_platform : String
  ad_click_id_type : String
  ad_click_id_value : String
deriving DecidableEq, Repr

/-- `detectAds(data)` from the tracker: a chain of truthiness checks on the
click identifiers, Facebook first, then Google, Microsoft, LinkedIn. -/
def detectAds (data : TrackingRecord) : AdInfo :=
  if data.fbclid ≠ "" then ⟨"Facebook/Instagram", "fbclid", data.fbclid⟩
  else if data.gclid ≠ "" then ⟨"Google Ads", "gclid", data.gclid⟩
  else if data.msclkid ≠ "" then ⟨"Microsoft Ads", "msclkid", data.msclkid⟩
  else if data.li_fat_id ≠ "" then ⟨"LinkedIn Ads", "li_fat_id", data.li_fat_id⟩
  else ⟨"", "", ""⟩

/-- Modelled from the spec wording ("a priority-ordered lookup over the
Attribution Record's click identifiers ... first non-empty match wins"):
the ordered priority table of click-identifier accessors. -/
def adPlatformTable : List ((TrackingRecord → String) × String × String) :=
  [(TrackingRecord.fbclid, "Facebook/Instagram", "fbclid"),
   (TrackingRecord.gclid, "Google Ads", "gclid"),
   (TrackingRecord.msclkid, "Microsoft Ads", "msclkid"),
   (TrackingRecord.li_fat_id, "LinkedIn Ads", "li_fat_id")]

/-- Modelled from the spec wording: walk the priority table in order, the
first entry whose click id is non-empty wins. -/
def firstNonEmptyEntry (r : TrackingRecord) :
    List ((TrackingRecord → String) × String × String) → AdInfo
  | [] => ⟨"", "", ""⟩
  | e :: rest =>
    if e.1 r ≠ "" then ⟨e.2.1, e.2.2, e.1 r⟩ else firstNonEmptyEntry r rest

/-- Modelled from the spec wording: priority-ordered lookup over the table;
all-empty classification when no click identifier is present. -/
def classifyAdPlatformSpec (r : TrackingRecord) : AdInfo :=
  firstNonEmptyEntry r adPlatformTable

/-- C3: Ad platform classification is a deterministic priority-ordered
lookup over the attribution record's click identifiers (Facebook before
Google before Microsoft before LinkedIn, first non-empty identifier wins),
returning platform name, click-id type and click-id value; with no click
identifier it returns all-empty fields; input containing both `fbclid` and
`gclid` classifies as Facebook/Instagram. -/
theorem c3_ad_platform_priority :
    (∀ r : TrackingRecord, detectAds r = classifyAdPlatformSpec r) ∧
    (detectAds { emptyTracking with fbclid := "1", gclid := "2" } =
      ⟨"Facebook/Instagram", "fbclid", "1"⟩) ∧
    (∀ r : TrackingRecord, r.fbclid = "" → r.gclid = "" → r.msclkid = "" →
      r.li_fat_id = "" → detectAds r = ⟨"", "", ""⟩) := by
  refine ⟨?_, by decide, ?_⟩
  · intro r
    rfl
  · intro r h1 h2 h3 h4
    simp [detectAds, h1, h2, h3, h4]

/-- Witness for C3: instantiates the all-empty clause at the all-empty
record. -/
theorem c3_ad_platform_priority_witness :
    detectAds emptyTracking = ⟨"", "", ""⟩ :=
  c3_ad_platform_priority.2.2 emptyTracking rfl rfl rfl rfl

/-! ## Session persistence of the attribution record

Source: the module-level initialization

```
let tracking = readParams();
const hasAny = Object.values(tracking).some(Boolean);
if (hasAny) {
  sessionStorage.setItem('tracking_params', JSON.stringify(tracking));
} else {
  const stored = sessionStorage.getItem('tracking_params');
  if (stored) { tracking = JSON.parse(stored); }
}
```

`JSON.parse` is a host primitive; it is modelled by `jsonParseFlatObj`, a
parser for flat string-valued JSON objects (the shape `JSON.stringify`
produces for the tracking record), returning `none` where `JSON.parse`
throws a `SyntaxError`.  Note the source wraps the parse in no try/catch:
a `none` result of `initTracking` models an uncaught exception aborting
tracker initialization. -/

/-- JSON whitespace skipping. -/
def skipWs (l : List Char) : List Char :=
  l.dropWhile (fun c => c = ' ' || c = '\n' || c = '\t' || c = '\r')

/-- Translate a JSON escape character (after a backslash). -/
def unescC (e : Char) : Char :=
  if e = 'n' then '\n' else if e = 't' then '\t' else if e = 'r' then '\r' else e

/-- Parse the body of a JSON string literal (after the opening quote):
returns the content and the remainder after the closing quote. -/
def strBody : List Char → Option (List Char × List Char)
  | [] => none
  | '"' :: rest => some ([], rest)
  | '\\' :: e :: rest2 => (strBody rest2).map (fun p => (unescC e :: p.1, p.2))
  | ['\\'] => none
  | c :: rest => (strBody rest).map (fun p => (c :: p.1, p.2))

/-- Parse the members of a JSON object whose values are all strings,
starting right after the opening brace; consumes the closing brace. -/
def parseMembers : Nat → List Char → Option (List (String × String) × List Char)
  | 0, _ => none
  | fuel + 1, l =>
    match skipWs l with
    | '"' :: rest =>
      match strBody rest with
      | none => none
      | some (key, r1) =>
        match skipWs r1 with
        | ':' :: r2 =>
          match skipWs r2 with
          | '"' :: r3 =>
            match strBody r3 with
            | none => none
            | some (val, r4) =>
              match skipWs r4 with
              | ',' :: r5 =>
                match parseMembers fuel r5 with
                | some (ps, r6) => some ((String.mk key, String.mk val) :: ps, r6)
                | none => none
              | '\x7d' :: r5 => some ([(String.mk key, String.mk val)], r5)
              | _ => none
          | _ => none
        | _ => none
    | _ => none

/-- Model of `JSON.parse` restricted to flat string-valued objects (the
only shape the tracker ever stores); `none` models a thrown
`SyntaxError`. -/
def jsonParseFlatObj (s : String) : Option (List (String × String)) :=
  match skipWs s.toList with
  | '\x7b' :: rest =>
    match skipWs rest with
    | '\x7d' :: r2 => if (skipWs r2).isEmpty then some [] else none
    | _ =>
      match parseMembers (rest.length + 1) rest with
      | some (ps, r2) => if (skipWs r2).isEmpty then some ps else none
      | none => none
  | _ => none

/-- Read a field of a parsed JSON object (last binding wins, as in JS). -/
def lookupD (ps : List (String × String)) (k : String) : String :=
  match ps.reverse.find? (fun p => p.1 == k) with
  | some p => p.2
  | none => ""

/-- Rebuild a tracking record from a parsed `tracking_params` object. -/
def recordOfPairs (ps : List (String × String)) : TrackingRecord :=
  { utm_source := lookupD ps "utm_source"
    utm_medium := lookupD ps "utm_medium"
    utm_campaign := lookupD ps "utm_campaign"
    utm_term := lookupD ps "utm_term"
    utm_content := lookupD ps "utm_content"
    utm_campaign_id := lookupD ps "utm_campaign_id"
    fbclid := lookupD ps "fbclid"
    gclid := lookupD ps "gclid"
    msclkid := lookupD ps "msclkid"
    li_fat_id := lookupD ps "li_fat_id" }

/-- `JSON.stringify(tracking)`: keys in field (insertion) order. -/
def stringifyTracking (t : TrackingRecord) : String :=
  "\x7b\"utm_source\":\"" ++ t.utm_source ++
  "\",\"utm_medium\":\"" ++ t.utm_medium ++
  "\",\"utm_campaign\":\"" ++ t.utm_campaign ++
  "\",\"utm_term\":\"" ++ t.utm_term ++
  "\",\"utm_content\":\"" ++ t.utm_content ++
  "\",\"utm_campaign_id\":\"" ++ t.utm_campaign_id ++
  "\",\"fbclid\":\"" ++ t.fbclid ++
  "\",\"gclid\":\"" ++ t.gclid ++
  "\",\"msclkid\":\"" ++ t.msclkid ++
  "\",\"li_fat_id\":\"" ++ t.li_fat_id ++ "\"\x7d"

/-- The tracker's attribution initialization: reads the query parameters,
persists them to session storage when any is non-empty, otherwise falls
back to the stored snapshot (parsing it) or keeps the all-empty fresh
read.  Returns the resolved record (`none` models an uncaught `JSON.parse`
exception) and the session-storage cell after initialization. -/
def initTracking (query : List (String × String)) (stored : Option String) :
    Option TrackingRecord × Option String :=
  let tracking := readParams query
  if hasAnyTracking tracking then
    (some tracking, some (stringifyTracking tracking))
  else
    match stored with
    | some s =>
      match jsonParseFlatObj s with
      | some ps => (some (recordOfPairs ps), some s)
      | none => (none, some s)
    | none => (some tracking, none)

theorem readParams_empty_of_not_hasAny (q : List (String × String))
    (h : hasAnyTracking (readParams q) = false) : readParams q = emptyTracking := by
  unfold hasAnyTracking at h
  simp only [Bool.or_eq_false_iff, decide_eq_false_iff_not, not_not] at h
  obtain ⟨⟨⟨⟨⟨⟨⟨⟨⟨h1, h2⟩, h3⟩, h4⟩, h5⟩, h6⟩, h7⟩, h8⟩, h9⟩, h10⟩ := h
  unfold emptyTracking
  cases hr : readParams q
  simp_all

/-- C2: attribution resolution is a function of the current query
parameters and the persisted record: when at least one recognized
parameter is non-empty the freshly read record is persisted and used,
atomically replacing the old one (fields absent from the new query become
empty); otherwise the persisted record is used when present, else the
all-empty record.  The two concrete clauses replay spec scenarios: a load
with `utm_source=x&gclid=y` followed by a parameter-less load in the same
session reuses the persisted record, and a later load with only
`utm_medium=m2` replaces the whole record (in particular `utm_source`
becomes empty, it is not retained). -/
theorem c2_attribution_resolution :
    (∀ (q : List (String × String)) (stored : Option String),
      hasAnyTracking (readParams q) = true →
      initTracking q stored =
        (some (readParams q), some (stringifyTracking (readParams q)))) ∧
    (∀ (q : List (String × String)) (s : String) (ps : List (String × String)),
      hasAnyTracking (readParams q) = false → jsonParseFlatObj s = some ps →
      initTracking q (some s) = (some (recordOfPairs ps), some s)) ∧
    (∀ q : List (String × String),
      hasAnyTracking (readParams q) = false →
      initTracking q none = (some emptyTracking, none)) ∧
    (initTracking [("utm_source", "x"), ("gclid", "y")] none =
      (some { emptyTracking with utm_source := "x", gclid := "y" },
       some (stringifyTracking { emptyTracking with utm_source := "x", gclid := "y" })) ∧
     initTracking []
        (some (stringifyTracking { emptyTracking with utm_source := "x", gclid := "y" })) =
      (some { emptyTracking with utm_source := "x", gclid := "y" },
       some (stringifyTracking { emptyTracking with utm_source := "x", gclid := "y" }))) ∧
    (initTracking [("utm_medium", "m2")]
        (some (stringifyTracking { emptyTracking with utm_source := "x", gclid := "y" })) =
      (some { emptyTracking with utm_medium := "m2" },
       some (stringifyTracking { emptyTracking with utm_medium := "m2" }))) := by
  refine ⟨?_, ?_, ?_, ⟨by decide, by decide⟩, by decide⟩
  · intro q stored h
    simp [initTracking, h]
  · intro q s ps h hp
    simp [initTracking, h, hp]
  · intro q h
    simp [initTracking, readParams_empty_of_not_hasAny q h, hasAnyTracking,
      emptyTracking]

/-- Witness for C2: instantiates the fresh-parameters clause and the
stored-fallback clause at concrete inputs. -/
theorem c2_attribution_resolution_witness :
    initTracking [("fbclid", "f1")] (some "ignored") =
      (some { emptyTracking with fbclid := "f1" },
       some (stringifyTracking { emptyTracking with fbclid := "f1" })) :=
  c2_attribution_resolution.1 [("fbclid", "f1")] (some "ignored") (by decide)

/-- C9 (the claim is right, the code is wrong): the spec requires that no
tracker operation throws and that every error branch degrades silently,
but the initialization `tracking = JSON.parse(stored)` is wrapped in no
try/catch, so with no recognized query parameters and a malformed
`tracking_params` session-storage entry (for example the single character
`{`), `JSON.parse` throws an uncaught `SyntaxError` and tracker
initialization aborts.  The `none` first component models the uncaught
exception. -/
theorem c9_init_parse_throws :
    initTracking [] (some "\x7b") = (none, some "\x7b") := by decide

/-! ## Client identity

Source: `getGAClientId` (identical in v1 and v2):

```
const match = document.cookie.match(/_ga=(.+?);/);
if (match && match[1]) {
  const parts = match[1].split('.');
  if (parts.length >= 4) { return parts[2] + '.' + parts[3]; }
}
let cid = localStorage.getItem('ga_client_id');
if (!cid) {
  cid = 'cid_' + Math.random().toString(36).slice(2) + Date.now();
  localStorage.setItem('ga_client_id', cid);
}
return cid;
```

The regex `/_ga=(.+?);/` is modelled exactly: the leftmost occurrence of
the literal `_ga=` that is followed by at least one character and then a
`;` matches, and the lazy group captures the shortest non-empty prefix
ending right before the first such `;`. -/

/-- Lazy group `(.+?)` followed by `;`: the shortest non-empty prefix of
`t` whose next character is `;`; `none` when no such split exists. -/
def takeUpToSemi : List Char → Option (List Char)
  | [] => none
  | c :: rest => if c = ';' then some [] else (takeUpToSemi rest).map (c :: ·)

/-- Capture of `(.+?);` on `t`: at least one character, then the first
`;`. -/
def lazyCapture (t : List Char) : Option (List Char) :=
  match t with
  | [] => none
  | c :: rest => (takeUpToSemi rest).map (c :: ·)

/-- Scan for the leftmost match of `/_ga=(.+?);/`, returning the captured
group. -/
def gaScan : List Char → Option (List Char)
  | [] => none
  | s :: rest =>
    if (s :: rest).take 4 = ['_', 'g', 'a', '='] then
      match lazyCapture ((s :: rest).drop 4) with
      | some cap => some cap
      | none => gaScan rest
    else gaScan rest

/-- `document.cookie.match(/_ga=(.+?);/)`, group 1 as a string. -/
def gaCookieCapture (cookie : String) : Option String :=
  (gaScan cookie.toList).map (fun l => String.mk l)

/-- `split('.')` on a character list: segments between dots, keeping empty
segments, as in JavaScript. -/
def splitDot : List Char → List (List Char)
  | [] => [[]]
  | c :: rest =>
    if c = '.' then [] :: splitDot rest
    else
      match splitDot rest with
      | [] => [[c]]
      | seg :: segs => (c :: seg) :: segs

/-- The cookie branch of `getGAClientId`: the captured value split on `.`;
segments 3 and 4 joined with a dot when there are at least four, else fall
through. -/
def cookieClientId (cookie : String) : Option String :=
  match gaCookieCapture cookie with
  | some cap =>
    let parts := (splitDot cap.toList).map (fun l => String.mk l)
    if parts.length ≥ 4 then some (parts.getD 2 "" ++ "." ++ parts.getD 3 "")
    else none
  | none => none

/-- The client-side identity state: the cookie string and the
`ga_client_id` localStorage entry. -/
structure ClientState where
  cookie : String
  storedCid : Option String
deriving DecidableEq, Repr

/-- `getGAClientId()`: cookie first, then localStorage, else generate
`'cid_' + random + now` and persist it.  `rand` and `now` stand for
`Math.random().toString(36).slice(2)` and `Date.now()`. -/
def getGAClientId (rand : String) (now : Nat) (s : ClientState) :
    String × ClientState :=
  match cookieClientId s.cookie with
  | some cid => (cid, s)
  | none =>
    match s.storedCid with
    | some cid => (cid, s)
    | none =>
      let cid := "cid_" ++ rand ++ toString now
      (cid, { s with storedCid := some cid })

/-- C8: client identity resolution is idempotent — a second call on the
state left behind by the first call (any later randomness) returns the
same identifier and leaves the state unchanged, so an identifier found via
the cookie path or the storage path is never regenerated. -/
theorem c8_identity_idempotent (rand1 rand2 : String) (now1 now2 : Nat)
    (s : ClientState) :
    getGAClientId rand2 now2 (getGAClientId rand1 now1 s).2 =
      ((getGAClientId rand1 now1 s).1, (getGAClientId rand1 now1 s).2) := by
  cases h1 : cookieClientId s.cookie with
  | some cid => simp [getGAClientId, h1]
  | none =>
    cases h2 : s.storedCid with
    | some cid => simp [getGAClientId, h1, h2]
    | none => simp [getGAClientId, h1, h2]

theorem takeUpToSemi_none_of_no_semi (l : List Char) (h : ';' ∉ l) :
    takeUpToSemi l = none := by
  induction l with
  | nil => rfl
  | cons c rest ih =>
    simp only [List.mem_cons] at h
    push_neg at h
    have hc : ¬c = ';' := fun e => h.1 e.symm
    simp [takeUpToSemi, hc, ih h.2]

theorem gaScan_none_of_no_semi (l : List Char) (h : ';' ∉ l) :
    gaScan l = none := by
  induction l with
  | nil => rfl
  | cons c rest ih =>
    simp only [List.mem_cons] at h
    push_neg at h
    have hrest := ih h.2
    unfold gaScan
    split
    · have hdrop : ';' ∉ rest.drop 3 := fun hm =>
        h.2 ((List.drop_sublist 3 rest).mem hm)
      have hlc : lazyCapture (rest.drop 3) = none := by
        cases hd : rest.drop 3 with
        | nil => rfl
        | cons x xs =>
          have hx : ';' ∉ xs := fun hm => (hd ▸ hdrop) (List.mem_cons_of_mem x hm)
          simp [lazyCapture, takeUpToSemi_none_of_no_semi xs hx]
      simp only [List.drop_succ_cons] at *
      simp [hlc, hrest]
    · exact hrest

/-- C10 (implicit): the analytics cookie is consulted only when the cookie
string contains `_ga=` with a value terminated by a semicolon.  A cookie
string containing no semicolon at all — in particular a well-formed `_ga`
cookie that is the only (or last) entry — never matches, and resolution
falls through to the stored identifier; with a terminating semicolon the
same cookie value is used.  The last conjunct shows the fall-through for a
`_ga` cookie sitting last, after another entry, with no trailing
semicolon. -/
theorem c10_cookie_semicolon :
    (∀ cookie : String, ';' ∉ cookie.toList → cookieClientId cookie = none) ∧
    (∀ (cookie rand : String) (now : Nat) (cid : String),
      ';' ∉ cookie.toList →
      getGAClientId rand now ⟨cookie, some cid⟩ = (cid, ⟨cookie, some cid⟩)) ∧
    (cookieClientId "x=1; _ga=GA1.2.111.222; y=2" = some "111.222") ∧
    (cookieClientId "foo=1; _ga=GA1.2.111.222" = none) := by
  have hnone : ∀ cookie : String, ';' ∉ cookie.toList → cookieClientId cookie = none := by
    intro cookie h
    unfold cookieClientId gaCookieCapture
    rw [gaScan_none_of_no_semi cookie.toList h]
    rfl
  refine ⟨hnone, ?_, by decide, by decide⟩
  intro cookie rand now cid h
  simp [getGAClientId, hnone cookie h]

/-- Witness for C10: the semicolon-free clauses instantiated at a
well-formed `_ga` cookie that is the only cookie entry. -/
theorem c10_cookie_semicolon_witness :
    cookieClientId "_ga=GA1.2.111.222" = none ∧
    getGAClientId "r" 5 ⟨"_ga=GA1.2.111.222", some "stored-id"⟩ =
      ("stored-id", ⟨"_ga=GA1.2.111.222", some "stored-id"⟩) :=
  ⟨c10_cookie_semicolon.1 "_ga=GA1.2.111.222" (by decide),
   c10_cookie_semicolon.2.1 "_ga=GA1.2.111.222" "r" 5 "stored-id" (by decide)⟩

/-! ## Scroll-depth tracking

Source: the scroll listener

```
const scrollMarks = [25, 50, 75, 90];
const seenScroll = new Set();
...
scrollMarks.forEach(mark => {
  if (percent >= mark && !seenScroll.has(mark)) {
    seenScroll.add(mark);
    pushToDataLayer('scroll_depth', { percent_scrolled: mark });
  }
});
```

A settled (post-debounce) scroll evaluation at a given percentage is one
`scrollStep`; a page-load's worth of evaluations is a `scrollRunSt` fold
carrying the seen-set.  The emitted `percent_scrolled` values are
collected in order. -/

/-- The fixed scroll thresholds. -/
def scrollMarks : List Int := [25, 50, 75, 90]

/-- One `forEach` pass over `scrollMarks` at scroll position `percent`:
state is (seen-set, events emitted so far in this pass). -/
def stepFold (percent : Int) (acc : List Int × List Int) (marks : List Int) :
    List Int × List Int :=
  marks.foldl
    (fun acc mark =>
      if percent ≥ mark && !(acc.1.contains mark) then
        (acc.1 ++ [mark], acc.2 ++ [mark])
      else acc)
    acc

/-- One settled scroll evaluation: returns the new seen-set and the
thresholds emitted by this evaluation. -/
def scrollStep (seen : List Int) (percent : Int) : List Int × List Int :=
  stepFold percent (seen, []) scrollMarks

/-- A sequence of settled scroll evaluations: final seen-set and the full
list of emitted `percent_scrolled` values in emission order. -/
def scrollRunSt : List Int → List Int → List Int × List Int
  | seen, [] => (seen, [])
  | seen, p :: ps =>
    let st := scrollStep seen p
    let rest := scrollRunSt st.1 ps
    (rest.1, st.2 ++ rest.2)

/-- The `percent_scrolled` values emitted over a page load whose settled
scroll evaluations saw the given percentages, starting from an empty
seen-set. -/
def scrollEvents (ps : List Int) : List Int := (scrollRunSt [] ps).2

theorem stepFold_inv (percent : Int) (marks : List Int) :
    ∀ s e : List Int, (∀ m, m ∈ e → m ∈ s) → e.Nodup →
      (∀ m, m ∈ s → m ∈ (stepFold percent (s, e) marks).1) ∧
      (∀ m, m ∈ (stepFold percent (s, e) marks).2 →
        m ∈ (stepFold percent (s, e) marks).1) ∧
      (∀ m, m ∈ (stepFold percent (s, e) marks).2 → m ∈ e ∨ m ∉ s) ∧
      (stepFold percent (s, e) marks).2.Nodup := by
  induction marks with
  | nil =>
    intro s e hes hnd
    exact ⟨fun m hm => hm, fun m hm => hes m hm, fun m hm => Or.inl hm, hnd⟩
  | cons mk rest ih =>
    intro s e hes hnd
    by_cases hc : (percent ≥ mk && !(s.contains mk)) = true
    · have hmk : mk ∉ s := by
        have hc' := hc
        simp only [Bool.and_eq_true, Bool.not_eq_true'] at hc'
        have := hc'.2
        simpa using this
      have hes' : ∀ m, m ∈ e ++ [mk] → m ∈ s ++ [mk] := by
        intro m hm
        rcases List.mem_append.mp hm with hm | hm
        · exact List.mem_append.mpr (Or.inl (hes m hm))
        · exact List.mem_append.mpr (Or.inr hm)
      have hnd' : (e ++ [mk]).Nodup := by
        rw [List.nodup_append]
        refine ⟨hnd, List.nodup_singleton mk, ?_⟩
        intro a ha hb
        simp only [List.mem_singleton] at hb
        exact hmk (hb ▸ hes a ha)
      have hstep : stepFold percent (s, e) (mk :: rest) =
          stepFold percent (s ++ [mk], e ++ [mk]) rest := by
        simp only [stepFold, List.foldl_cons]
        rw [if_pos hc]
      rw [hstep]
      obtain ⟨ih1, ih2, ih3, ih4⟩ := ih (s ++ [mk]) (e ++ [mk]) hes' hnd'
      refine ⟨?_, ih2, ?_, ih4⟩
      · intro m hm
        exact ih1 m (List.mem_append.mpr (Or.inl hm))
      · intro m hm
        rcases ih3 m hm with hm' | hm'
        · rcases List.mem_append.mp hm' with hm'' | hm''
          · exact Or.inl hm''
          · simp only [List.mem_singleton] at hm''
            exact Or.inr (hm'' ▸ hmk)
        · exact Or.inr (fun hs => hm' (List.mem_append.mpr (Or.inl hs)))
    · have hstep : stepFold percent (s, e) (mk :: rest) =
          stepFold percent (s, e) rest := by
        simp only [stepFold, List.foldl_cons]
        rw [if_neg hc]
      rw [hstep]
      exact ih s e hes hnd

theorem scrollStep_inv (seen : List Int) (percent : Int) :
    (∀ m, m ∈ seen → m ∈ (scrollStep seen percent).1) ∧
    (∀ m, m ∈ (scrollStep seen percent).2 → m ∈ (scrollStep seen percent).1) ∧
    (∀ m, m ∈ (scrollStep seen percent).2 → m ∉ seen) ∧
    (scrollStep seen percent).2.Nodup := by
  obtain ⟨h1, h2, h3, h4⟩ :=
    stepFold_inv percent scrollMarks seen [] (fun m hm => absurd hm (List.not_mem_nil m))
      List.nodup_nil
  refine ⟨h1, h2, ?_, h4⟩
  intro m hm
  rcases h3 m hm with hm' | hm'
  · exact absurd hm' (List.not_mem_nil m)
  · exact hm'

theorem scrollRunSt_inv (ps : List Int) :
    ∀ seen : List Int,
      (∀ m, m ∈ seen → m ∈ (scrollRunSt seen ps).1) ∧
      (∀ m, m ∈ (scrollRunSt seen ps).2 →
        m ∉ seen ∧ m ∈ (scrollRunSt seen ps).1) ∧
      (scrollRunSt seen ps).2.Nodup := by
  induction ps with
  | nil =>
    intro seen
    exact ⟨fun m hm => hm, fun m hm => absurd hm (List.not_mem_nil m), List.nodup_nil⟩
  | cons p rest ih =>
    intro seen
    obtain ⟨s1, s2, s3, s4⟩ := scrollStep_inv seen p
    obtain ⟨i1, i2, i3⟩ := ih (scrollStep seen p).1
    have hrun : scrollRunSt seen (p :: rest) =
        ((scrollRunSt (scrollStep seen p).1 rest).1,
         (scrollStep seen p).2 ++ (scrollRunSt (scrollStep seen p).1 rest).2) := rfl
    rw [hrun]
    refine ⟨?_, ?_, ?_⟩
    · intro m hm
      exact i1 m (s1 m hm)
    · intro m hm
      rcases List.mem_append.mp hm with hm' | hm'
      · exact ⟨s3 m hm', i1 m (s2 m hm')⟩
      · obtain ⟨hna, hin⟩ := i2 m hm'
        exact ⟨fun hs => hna (s1 m hs), hin⟩
    · rw [List.nodup_append]
      refine ⟨s4, i3, ?_⟩
      intro a ha hb
      exact (i2 a hb).1 (s2 a ha)

/-- Counterexample to C5: the scroll sequence crossing 30%, then 60%, then
back to 40%, then forward to 95% emits four `scroll_depth` events, not the
two the claim asserts. -/
theorem c5_counterexample_four_events :
    (scrollEvents [30, 60, 40, 95]).length ≠ 2 := by decide

/-- C5 as amended: for that scroll sequence the tracker emits exactly four
`scroll_depth` events, with thresholds 25, 50, 75, 90 each firing exactly
once, in ascending order of first crossing; and over any sequence of
scroll evaluations no threshold ever fires twice in a page load. -/
theorem c5_scroll_dedup_amended :
    scrollEvents [30, 60, 40, 95] = [25, 50, 75, 90] ∧
    (∀ ps : List Int, (scrollEvents ps).Nodup) := by
  refine ⟨by decide, ?_⟩
  intro ps
  exact ((scrollRunSt_inv ps) []).2.2

/-! ## Session-start gating

Source: the initialization

```
if (!sessionStorage.getItem('session_started')) {
  sessionStorage.setItem('session_started', '1');
  pushToDataLayer('session_start');
}
pushToDataLayer('page_view');
```

plus the observer listeners, each of which pushes a fixed event name.  A
browser session is a sequence of page loads sharing the session-storage
`session_started` marker; each page load runs the initialization and then
any number of observer callbacks. -/

/-- An observer-triggered emission within a page load, with the event name
each listener passes to `pushToDataLayer`. -/
inductive PageEvt where
  | scrollDepth (mark : Int) : PageEvt
  | navClick : PageEvt
  | ctaClick : PageEvt
  | footerClick : PageEvt
  | tabClick : PageEvt
  | genericClick : PageEvt
  | formStart : PageEvt
  | formSubmitNative : PageEvt
  | formSubmitIframe : PageEvt
  | exitIntent : PageEvt
  | pageHide : PageEvt
  | pageShow : PageEvt
deriving DecidableEq, Repr

/-- The event name each observer pushes. -/
def evtName : PageEvt → String
  | .scrollDepth _ => "scroll_depth"
  | .navClick => "nav_click"
  | .ctaClick => "cta_click"
  | .footerClick => "footer_click"
  | .tabClick => "tab_click"
  | .genericClick => "click"
  | .formStart => "form_start"
  | .formSubmitNative => "form_submit"
  | .formSubmitIframe => "form_submit"
  | .exitIntent => "exit_intent"
  | .pageHide => "page_hide"
  | .pageShow => "page_show"

/-- One page load: given the `session_started` marker, the initialization
pushes `session_start` exactly when the marker is unset (setting it), then
`page_view`, then the observers fire.  Returns the new marker and the
event names appended to the data layer by this load. -/
def pageLoadNames (started : Bool) (evts : List PageEvt) : Bool × List String :=
  if started then (true, "page_view" :: evts.map evtName)
  else (true, "session_start" :: "page_view" :: evts.map evtName)

/-- A whole browser session: page loads sharing the marker, which starts
unset; collects every event name appended to the data layer. -/
def sessionRunNames : Bool → List (List PageEvt) → List String
  | _, [] => []
  | started, l :: ls =>
    (pageLoadNames started l).2 ++ sessionRunNames (pageLoadNames started l).1 ls

theorem evtName_ne_session_start (e : PageEvt) : evtName e ≠ "session_start" := by
  cases e <;> simp [evtName]

theorem count_session_start_map_evtName (l : List PageEvt) :
    (l.map evtName).count "session_start" = 0 := by
  rw [List.count_eq_zero]
  intro hm
  obtain ⟨e, _, he⟩ := List.mem_map.mp hm
  exact evtName_ne_session_start e he

theorem sessionRunNames_started_count (ls : List (List PageEvt)) :
    (sessionRunNames true ls).count "session_start" = 0 := by
  induction ls with
  | nil => rfl
  | cons l rest ih =>
    rw [sessionRunNames]
    simp [pageLoadNames, List.count_append, List.count_cons,
      count_session_start_map_evtName, ih]

/-- C7: within one browser session — one lifetime of the session-storage
marker — across any number of page loads, each with any number of
observer-triggered emissions, exactly one `session_start` event is
appended to the data layer, gated by the `session_started` marker set when
the first event fires. -/
theorem c7_session_start_once (loads : List (List PageEvt)) (h : loads ≠ []) :
    (sessionRunNames false loads).count "session_start" = 1 := by
  cases loads with
  | nil => exact absurd rfl h
  | cons l rest =>
    rw [sessionRunNames]
    simp [pageLoadNames, List.count_append, List.count_cons,
      count_session_start_map_evtName, sessionRunNames_started_count]

/-- Witness for C7: a two-page session (a form interaction on the first
page, nothing on the second) appends exactly one `session_start`. -/
theorem c7_session_start_once_witness :
    (sessionRunNames false [[PageEvt.formStart, PageEvt.formSubmitNative], []]).count
      "session_start" = 1 :=
  c7_session_start_once [[PageEvt.formStart, PageEvt.formSubmitNative], []] (by decide)

/-! ## The event envelope

Source: `pushToDataLayer` (v1 shown; v2 is identical except the
`organization: CONFIG.org` entry is `tracking_key: CONFIG.tracking_key`):

```
const payload = {
  event: eventName, activity_type: eventName,
  organization: CONFIG.org, environment: CONFIG.env,
  ga_client_id: GA_CLIENT_ID, client_id: GA_CLIENT_ID,
  page_url: location.href, page_title: document.title,
  page_referrer: document.referrer || 'direct',
  timestamp: new Date().toISOString(),
  ...tracking, ...adInfo, ...eventData
};
window.dataLayer.push(payload);
```

Page context (`location.href`, `document.title`, `document.referrer`,
`new Date().toISOString()`) enters as parameters. -/

/-- The attribution record as the object `...tracking` spreads. -/
def trackingObj (t : TrackingRecord) : Obj :=
  [("utm_source", .str t.utm_source), ("utm_medium", .str t.utm_medium),
   ("utm_campaign", .str t.utm_campaign), ("utm_term", .str t.utm_term),
   ("utm_content", .str t.utm_content),
   ("utm_campaign_id", .str t.utm_campaign_id),
   ("fbclid", .str t.fbclid), ("gclid", .str t.gclid),
   ("msclkid", .str t.msclkid), ("li_fat_id", .str t.li_fat_id)]

/-- The ad classification as the object `...adInfo` spreads. -/
def adObj (a : AdInfo) : Obj :=
  [("ad_platform", .str a.ad_platform),
   ("ad_click_id_type", .str a.ad_click_id_type),
   ("ad_click_id_value", .str a.ad_click_id_value)]

/-- The fixed leading entries of the v1 payload object literal. -/
def envBaseV1 (org env clientId pageUrl pageTitle referrer ts
    eventName : String) : Obj :=
  [("event", .str eventName), ("activity_type", .str eventName),
   ("organization", .str org), ("environment", .str env),
   ("ga_client_id", .str clientId), ("client_id", .str clientId),
   ("page_url", .str pageUrl), ("page_title", .str pageTitle),
   ("page_referrer", .str (strOr referrer "direct")),
   ("timestamp", .str ts)]

/-- `pushToDataLayer(eventName, eventData)` in v1: the payload appended to
the data layer (spreads are list appends, `eventData` last). -/
def pushToDataLayerV1 (org env clientId pageUrl pageTitle referrer ts : String)
    (tracking : TrackingRecord) (adInfo : AdInfo) (eventName : String)
    (eventData : Obj) : Obj :=
  envBaseV1 org env clientId pageUrl pageTitle referrer ts eventName ++
    trackingObj tracking ++ adObj adInfo ++ eventData

/-- The fixed leading entries of the v2 payload object literal
(`tracking_key` instead of `organization`). -/
def envBaseV2 (trackingKey env clientId pageUrl pageTitle referrer ts
    eventName : String) : Obj :=
  [("event", .str eventName), ("activity_type", .str eventName),
   ("tracking_key", .str trackingKey), ("environment", .str env),
   ("ga_client_id", .str clientId), ("client_id", .str clientId),
   ("page_url", .str pageUrl), ("page_title", .str pageTitle),
   ("page_referrer", .str (strOr referrer "direct")),
   ("timestamp", .str ts)]

/-- `pushToDataLayer(eventName, eventData)` in v2. -/
def pushToDataLayerV2 (trackingKey env clientId pageUrl pageTitle referrer
    ts : String) (tracking : TrackingRecord) (adInfo : AdInfo)
    (eventName : String) (eventData : Obj) : Obj :=
  envBaseV2 trackingKey env clientId pageUrl pageTitle referrer ts eventName ++
    trackingObj tracking ++ adObj adInfo ++ eventData

/-- Every key the envelope itself binds before `...eventData` spreads. -/
def envelopeKeys : List String :=
  ["event", "activity_type", "organization", "environment", "ga_client_id",
   "client_id", "page_url", "page_title", "page_referrer", "timestamp",
   "utm_source", "utm_medium", "utm_campaign", "utm_term", "utm_content",
   "utm_campaign_id", "fbclid", "gclid", "msclkid", "li_fat_id",
   "ad_platform", "ad_click_id_type", "ad_click_id_value"]

/-- Counterexample to C4: a custom event pushed through the public API
(`window.ClientTracker.push`) with event data binding `client_id` to
`undefined` yields an envelope whose `client_id` is `undefined`, because
`...eventData` spreads last and wins every key collision; so with
arbitrary event data the envelope is not guaranteed a non-undefined
`client_id`. -/
theorem c4_counterexample_override :
    jsGet
      (pushToDataLayerV1 "acme" "prod" "cid1" "https://e/" "T" ""
        "2026-01-01T00:00:00.000Z" emptyTracking (detectAds emptyTracking)
        "custom" [("client_id", JsVal.undefined)]) "client_id" =
      some JsVal.undefined := by
  decide

/-- C4 as amended: every envelope built by the emitter — for any event
name and any event data that does not itself rebind an envelope key —
contains `event`, `client_id` and `timestamp` bound to the emitter's
(defined) string values and carries the full attribution record and ad
classification current at emission time; when the event data does rebind
one of those keys it wins the collision (as the counterexample shows). -/
theorem c4_envelope_completeness_amended
    (org env cid url title ref ts eventName : String) (t : TrackingRecord)
    (a : AdInfo) (eventData : Obj)
    (h : ∀ k ∈ envelopeKeys, jsGet eventData k = none) :
    jsGet (pushToDataLayerV1 org env cid url title ref ts t a eventName
      eventData) "event" = some (.str eventName) ∧
    jsGet (pushToDataLayerV1 org env cid url title ref ts t a eventName
      eventData) "client_id" = some (.str cid) ∧
    jsGet (pushToDataLayerV1 org env cid url title ref ts t a eventName
      eventData) "timestamp" = some (.str ts) ∧
    (∀ k ∈ (trackingObj t).map Prod.fst,
      jsGet (pushToDataLayerV1 org env cid url title ref ts t a eventName
        eventData) k = jsGet (trackingObj t) k) ∧
    (∀ k ∈ (adObj a).map Prod.fst,
      jsGet (pushToDataLayerV1 org env cid url title ref ts t a eventName
        eventData) k = jsGet (adObj a) k) := by
  refine ⟨?_, ?_, ?_, ?_, ?_⟩
  · simp [pushToDataLayerV1, envBaseV1, trackingObj, adObj, jsGet_append,
      jsGet, h "event" (by decide)]
  · simp [pushToDataLayerV1, envBaseV1, trackingObj, adObj, jsGet_append,
      jsGet, h "client_id" (by decide)]
  · simp [pushToDataLayerV1, envBaseV1, trackingObj, adObj, jsGet_append,
      jsGet, h "timestamp" (by decide)]
  · intro k hk
    simp only [trackingObj, List.map_cons, List.map_nil, List.mem_cons,
      List.not_mem_nil, or_false] at hk
    rcases hk with hk | hk | hk | hk | hk | hk | hk | hk | hk | hk <;>
      subst hk <;>
      simp [pushToDataLayerV1, envBaseV1, trackingObj, adObj, jsGet_append,
        jsGet, h, envelopeKeys]
  · intro k hk
    simp only [adObj, List.map_cons, List.map_nil, List.mem_cons,
      List.not_mem_nil, or_false] at hk
    rcases hk with hk | hk | hk <;>
      subst hk <;>
      simp [pushToDataLayerV1, envBaseV1, trackingObj, adObj, jsGet_append,
        jsGet, h, envelopeKeys]

/-- Witness for C4: instantiates the amended theorem at concrete
configuration, context, attribution and non-colliding event data. -/
theorem c4_envelope_completeness_witness :
    jsGet (pushToDataLayerV1 "acme" "prod" "cid1" "https://e/" "T" ""
      "2026-01-01T00:00:00.000Z" emptyTracking (detectAds emptyTracking)
      "custom" [("foo", JsVal.str "bar")]) "client_id" =
      some (JsVal.str "cid1") :=
  (c4_envelope_completeness_amended "acme" "prod" "cid1" "https://e/" "T" ""
    "2026-01-01T00:00:00.000Z" "custom" emptyTracking (detectAds emptyTracking)
    [("foo", JsVal.str "bar")] (by decide)).2.1

/-! ## Field-name normalization

Source: `normalizeFieldNames(data)` in v2, a chain of fifteen alias
groups.  Every group reads from the original `data` and assigns into the
accumulating `normalized` object (which starts as `{...data}`); the
assignments of group `G` are modelled by `normG data acc`. -/

/-- The first truthy value of a list, `undefined` when none is truthy
(the spec's "first matching value found, in a fixed alias-priority
order"). -/
def firstTruthy (vs : List JsVal) : JsVal := (vs.find? truthy).getD .undefined

def normFirstName (data acc : Obj) : Obj :=
  if truthy (getProp data "firstName") || truthy (getProp data "first_name") ||
      truthy (getProp data "firstname") then
    let v := jsOr (getProp data "firstName")
      (jsOr (getProp data "first_name") (getProp data "firstname"))
    setProp (setProp acc "firstName" v) "first_name" v
  else acc

def normLastName (data acc : Obj) : Obj :=
  if truthy (getProp data "lastName") || truthy (getProp data "last_name") ||
      truthy (getProp data "lastname") then
    let v := jsOr (getProp data "lastName")
      (jsOr (getProp data "last_name") (getProp data "lastname"))
    setProp (setProp acc "lastName" v) "last_name" v
  else acc

def normEmail (data acc : Obj) : Obj :=
  if truthy (getProp data "email") || truthy (getProp data "lead_email") ||
      truthy (getProp data "email_address") || truthy (getProp data "user_email") then
    let v := jsOr (getProp data "email") (jsOr (getProp data "lead_email")
      (jsOr (getProp data "email_address") (getProp data "user_email")))
    setProp (setProp acc "email" v) "lead_email" v
  else acc

def normMobile (data acc : Obj) : Obj :=
  if truthy (getProp data "mobile") || truthy (getProp data "mobileNo") ||
      truthy (getProp data "mobile_no") || truthy (getProp data "phone") ||
      truthy (getProp data "phone_number") || truthy (getProp data "phoneNumber") then
    let v := jsOr (getProp data "mobile") (jsOr (getProp data "mobileNo")
      (jsOr (getProp data "mobile_no") (jsOr (getProp data "phone")
      (jsOr (getProp data "phone_number") (getProp data "phoneNumber")))))
    setProp (setProp (setProp acc "mobile_no" v) "mobileNo" v) "phone" v
  else acc

def normCompany (data acc : Obj) : Obj :=
  if truthy (getProp data "company") || truthy (getProp data "company_name") ||
      truthy (getProp data "companyName") || truthy (getProp data "organization") then
    let v := jsOr (getProp data "company") (jsOr (getProp data "company_name")
      (jsOr (getProp data "companyName") (getProp data "organization")))
    setProp (setProp acc "company" v) "company_name" v
  else acc

def normCountry (data acc : Obj) : Obj :=
  if truthy (getProp data "country") || truthy (getProp data "country_code") ||
      truthy (getProp data "countryCode") then
    setProp acc "country" (jsOr (getProp data "country")
      (jsOr (getProp data "country_code") (getProp data "countryCode")))
  else acc

def normMessage (data acc : Obj) : Obj :=
  if truthy (getProp data "message") || truthy (getProp data "comments") ||
      truthy (getProp data "description") || truthy (getProp data "notes") then
    let v := jsOr (getProp data "message") (jsOr (getProp data "comments")
      (jsOr (getProp data "description") (getProp data "notes")))
    setProp (setProp acc "message" v) "comments" v
  else acc

def normJobTitle (data acc : Obj) : Obj :=
  if truthy (getProp data "jobTitle") || truthy (getProp data "job_title") ||
      truthy (getProp data "title") || truthy (getProp data "position") then
    let v := jsOr (getProp data "jobTitle") (jsOr (getProp data "job_title")
      (jsOr (getProp data "title") (getProp data "position")))
    setProp (setProp acc "job_title" v) "jobTitle" v
  else acc

def normIndustry (data acc : Obj) : Obj :=
  if truthy (getProp data "industry") || truthy (getProp data "business_type") ||
      truthy (getProp data "businessType") then
    let v := jsOr (getProp data "industry")
      (jsOr (getProp data "business_type") (getProp data "businessType"))
    setProp (setProp acc "industry" v) "business_type" v
  else acc

def normWebsite (data acc : Obj) : Obj :=
  if truthy (getProp data "website") || truthy (getProp data "website_url") ||
      truthy (getProp data "websiteUrl") || truthy (getProp data "url") then
    let v := jsOr (getProp data "website") (jsOr (getProp data "website_url")
      (jsOr (getProp data "websiteUrl") (getProp data "url")))
    setProp (setProp acc "website" v) "website_url" v
  else acc

def normState (data acc : Obj) : Obj :=
  if truthy (getProp data "state") || truthy (getProp data "region") ||
      truthy (getProp data "province") then
    let v := jsOr (getProp data "state")
      (jsOr (getProp data "region") (getProp data "province"))
    setProp (setProp acc "state" v) "region" v
  else acc

def normCity (data acc : Obj) : Obj :=
  if truthy (getProp data "city") || truthy (getProp data "town") then
    setProp acc "city" (jsOr (getProp data "city") (getProp data "town"))
  else acc

def normZip (data acc : Obj) : Obj :=
  if truthy (getProp data "zip") || truthy (getProp data "zipcode") ||
      truthy (getProp data "zip_code") || truthy (getProp data "postal_code") ||
      truthy (getProp data "postalCode") then
    let v := jsOr (getProp data "zip") (jsOr (getProp data "zipcode")
      (jsOr (getProp data "zip_code") (jsOr (getProp data "postal_code")
      (getProp data "postalCode"))))
    setProp (setProp acc "zip_code" v) "postal_code" v
  else acc

def normGender (data acc : Obj) : Obj :=
  if truthy (getProp data "gender") || truthy (getProp data "sex") then
    setProp acc "gender" (jsOr (getProp data "gender") (getProp data "sex"))
  else acc

def normAge (data acc : Obj) : Obj :=
  if truthy (getProp data "age") || truthy (getProp data "date_of_birth") ||
      truthy (getProp data "dob") || truthy (getProp data "birthdate") then
    setProp (setProp acc "age" (getProp data "age")) "date_of_birth"
      (jsOr (getProp data "date_of_birth")
        (jsOr (getProp data "dob") (getProp data "birthdate")))
  else acc

/-- `normalizeFieldNames(data)`: start from `{...data}` and run the
fifteen alias groups in source order. -/
def normalizeFieldNames (data : Obj) : Obj :=
  normAge data (normGender data (normZip data (normCity data (normState data
    (normWebsite data (normIndustry data (normJobTitle data (normMessage data
    (normCountry data (normCompany data (normMobile data (normEmail data
    (normLastName data (normFirstName data data))))))))))))))

theorem jsGet_setProp_eq (o : Obj) (k' : String) (v : JsVal) (k : String) :
    jsGet (setProp o k' v) k = if k' = k then some v else jsGet o k := by
  rw [jsGet_setProp]
  by_cases h : k' = k <;> simp [h]

theorem jsOr_firstTruthy2 (a b : JsVal)
    (h : (truthy a || truthy b) = true) :
    jsOr a b = firstTruthy [a, b] := by
  cases ha : truthy a <;> cases hb : truthy b <;>
    simp_all [jsOr, firstTruthy, List.find?]

theorem jsOr_firstTruthy3 (a b c : JsVal)
    (h : (truthy a || truthy b || truthy c) = true) :
    jsOr a (jsOr b c) = firstTruthy [a, b, c] := by
  cases ha : truthy a <;> cases hb : truthy b <;> cases hc : truthy c <;>
    simp_all [jsOr, firstTruthy, List.find?]

theorem jsOr_firstTruthy4 (a b c d : JsVal)
    (h : (truthy a || truthy b || truthy c || truthy d) = true) :
    jsOr a (jsOr b (jsOr c d)) = firstTruthy [a, b, c, d] := by
  cases ha : truthy a <;> cases hb : truthy b <;> cases hc : truthy c <;>
    cases hd : truthy d <;> simp_all [jsOr, firstTruthy, List.find?]

theorem jsOr_firstTruthy5 (a b c d e : JsVal)
    (h : (truthy a || truthy b || truthy c || truthy d || truthy e) = true) :
    jsOr a (jsOr b (jsOr c (jsOr d e))) = firstTruthy [a, b, c, d, e] := by
  cases ha : truthy a <;> cases hb : truthy b <;> cases hc : truthy c <;>
    cases hd : truthy d <;> cases he : truthy e <;>
    simp_all [jsOr, firstTruthy, List.find?]

theorem jsOr_firstTruthy6 (a b c d e f : JsVal)
    (h : (truthy a || truthy b || truthy c || truthy d || truthy e ||
      truthy f) = true) :
    jsOr a (jsOr b (jsOr c (jsOr d (jsOr e f)))) =
      firstTruthy [a, b, c, d, e, f] := by
  cases ha : truthy a <;> cases hb : truthy b <;> cases hc : truthy c <;>
    cases hd : truthy d <;> cases he : truthy e <;> cases hf : truthy f <;>
    simp_all [jsOr, firstTruthy, List.find?]

theorem nf_firstName (d : Obj) :
    jsGet (normalizeFieldNames d) "firstName" =
      (if truthy (getProp d "firstName") || truthy (getProp d "first_name") ||
          truthy (getProp d "firstname") then
        some (firstTruthy [getProp d "firstName", getProp d "first_name",
          getProp d "firstname"])
      else jsGet d "firstName") := by
  by_cases hg : (truthy (getProp d "firstName") || truthy (getProp d "first_name") ||
      truthy (getProp d "firstname")) = true
  · simp only [normalizeFieldNames, normAge, normGender, normZip, normCity,
      normState, normWebsite, normIndustry, normJobTitle, normMessage,
      normCountry, normCompany, normMobile, normEmail, normLastName,
      normFirstName, apply_ite (fun o => jsGet o "firstName"),
      jsGet_setProp_eq, hg, if_true, ite_self]
    simp [jsOr_firstTruthy3 _ _ _ hg]
  · simp only [normalizeFieldNames, normAge, normGender, normZip, normCity,
      normState, normWebsite, normIndustry, normJobTitle, normMessage,
      normCountry, normCompany, normMobile, normEmail, normLastName,
      normFirstName, apply_ite (fun o => jsGet o "firstName"),
      jsGet_setProp_eq, hg, if_false, ite_self]
    simp [hg]

theorem nf_first_name (d : Obj) :
    jsGet (normalizeFieldNames d) "first_name" =
      (if truthy (getProp d "firstName") ||
          truthy (getProp d "first_name") ||
          truthy (getProp d "firstname") then
        some (firstTruthy [getProp d "firstName", getProp d "first_name", getProp d "firstname"])
      else jsGet d "first_name") := by
  by_cases hg : (truthy (getProp d "firstName") ||
          truthy (getProp d "first_name") ||
          truthy (getProp d "firstname")) = true
  · simp only [normalizeFieldNames, normAge, normGender, normZip, normCity,
      normState, normWebsite, normIndustry, normJobTitle, normMessage,
      normCountry, normCompany, normMobile, normEmail, normLastName,
      normFirstName, apply_ite (fun o => jsGet o "first_name"),
      jsGet_setProp_eq, hg, if_true, ite_self]
    simp [jsOr_firstTruthy3 _ _ _ hg]
  · simp only [normalizeFieldNames, normAge, normGender, normZip, normCity,
      normState, normWebsite, normIndustry, normJobTitle, normMessage,
      normCountry, normCompany, normMobile, normEmail, normLastName,
      normFirstName, apply_ite (fun o => jsGet o "first_name"),
      jsGet_setProp_eq, hg, if_false, ite_self]
    simp [hg]

theorem nf_lastName (d : Obj) :
    jsGet (normalizeFieldNames d) "lastName" =
      (if truthy (getProp d "lastName") ||
          truthy (getProp d "last_name") ||
          truthy (getProp d "lastname") then
        some (firstTruthy [getProp d "lastName", getProp d "last_name", getProp d "lastname"])
      else jsGet d "lastName") := by
  by_cases hg : (truthy (getProp d "lastName") ||
          truthy (getProp d "last_name") ||
          truthy (getProp d "lastname")) = true
  · simp only [normalizeFieldNames, normAge, normGender, normZip, normCity,
      normState, normWebsite, normIndustry, normJobTitle, normMessage,
      normCountry, normCompany, normMobile, normEmail, normLastName,
      normFirstName, apply_ite (fun o => jsGet o "lastName"),
      jsGet_setProp_eq, hg, if_true, ite_self]
    simp [jsOr_firstTruthy3 _ _ _ hg]
  · simp only [normalizeFieldNames, normAge, normGender, normZip, normCity,
      normState, normWebsite, normIndustry, normJobTitle, normMessage,
      normCountry, normCompany, normMobile, normEmail, normLastName,
      normFirstName, apply_ite (fun o => jsGet o "lastName"),
      jsGet_setProp_eq, hg, if_false, ite_self]
    simp [hg]

theorem nf_last_name (d : Obj) :
    jsGet (normalizeFieldNames d) "last_name" =
      (if truthy (getProp d "lastName") ||
          truthy (getProp d "last_name") ||
          truthy (getProp d "lastname") then
        some (firstTruthy [getProp d "lastName", getProp d "last_name", getProp d "lastname"])
      else jsGet d "last_name") := by
  by_cases hg : (truthy (getProp d "lastName") ||
          truthy (getProp d "last_name") ||
          truthy (getProp d "lastname")) = true
  · simp only [normalizeFieldNames, normAge, normGender, normZip, normCity,
      normState, normWebsite, normIndustry, normJobTitle, normMessage,
      normCountry, normCompany, normMobile, normEmail, normLastName,
      normFirstName, apply_ite (fun o => jsGet o "last_name"),
      jsGet_setProp_eq, hg, if_true, ite_self]
    simp [jsOr_firstTruthy3 _ _ _ hg]
  · simp only [normalizeFieldNames, normAge, normGender, normZip, normCity,
      normState, normWebsite, normIndustry, normJobTitle, normMessage,
      normCountry, normCompany, normMobile, normEmail, normLastName,
      normFirstName, apply_ite (fun o => jsGet o "last_name"),
      jsGet_setProp_eq, hg, if_false, ite_self]
    simp [hg]

theorem nf_email (d : Obj) :
    jsGet (normalizeFieldNames d) "email" =
      (if truthy (getProp d "email") ||
          truthy (getProp d "lead_email") ||
          truthy (getProp d "email_address") ||
          truthy (getProp d "user_email") then
        some (firstTruthy [getProp d "email", getProp d "lead_email", getProp d "email_address", getProp d "user_email"])
      else jsGet d "email") := by
  by_cases hg : (truthy (getProp d "email") ||
          truthy (getProp d "lead_email") ||
          truthy (getProp d "email_address") ||
          truthy (getProp d "user_email")) = true
  · simp only [normalizeFieldNames, normAge, normGender, normZip, normCity,
      normState, normWebsite, normIndustry, normJobTitle, normMessage,
      normCountry, normCompany, normMobile, normEmail, normLastName,
      normFirstName, apply_ite (fun o => jsGet o "email"),
      jsGet_setProp_eq, hg, if_true, ite_self]
    simp [jsOr_firstTruthy4 _ _ _ _ hg]
  · simp only [normalizeFieldNames, normAge, normGender, normZip, normCity,
      normState, normWebsite, normIndustry, normJobTitle, normMessage,
      normCountry, normCompany, normMobile, normEmail, normLastName,
      normFirstName, apply_ite (fun o => jsGet o "email"),
      jsGet_setProp_eq, hg, if_false, ite_self]
    simp [hg]

theorem nf_lead_email (d : Obj) :
    jsGet (normalizeFieldNames d) "lead_email" =
      (if truthy (getProp d "email") ||
          truthy (getProp d "lead_email") ||
          truthy (getProp d "email_address") ||
          truthy (getProp d "user_email") then
        some (firstTruthy [getProp d "email", getProp d "lead_email", getProp d "email_address", getProp d "user_email"])
      else jsGet d "lead_email") := by
  by_cases hg : (truthy (getProp d "email") ||
          truthy (getProp d "lead_email") ||
          truthy (getProp d "email_address") ||
          truthy (getProp d "user_email")) = true
  · simp only [normalizeFieldNames, normAge, normGender, normZip, normCity,
      normState, normWebsite, normIndustry, normJobTitle, normMessage,
      normCountry, normCompany, normMobile, normEmail, normLastName,
      normFirstName, apply_ite (fun o => jsGet o "lead_email"),
      jsGet_setProp_eq, hg, if_true, ite_self]
    simp [jsOr_firstTruthy4 _ _ _ _ hg]
  · simp only [normalizeFieldNames, normAge, normGender, normZip, normCity,
      normState, normWebsite, normIndustry, normJobTitle, normMessage,
      normCountry, normCompany, normMobile, normEmail, normLastName,
      normFirstName, apply_ite (fun o => jsGet o "lead_email"),
      jsGet_setProp_eq, hg, if_false, ite_self]
    simp [hg]

theorem nf_mobile_no (d : Obj) :
    jsGet (normalizeFieldNames d) "mobile_no" =
      (if truthy (getProp d "mobile") ||
          truthy (getProp d "mobileNo") ||
          truthy (getProp d "mobile_no") ||
          truthy (getProp d "phone") ||
          truthy (getProp d "phone_number") ||
          truthy (getProp d "phoneNumber") then
        some (firstTruthy [getProp d "mobile", getProp d "mobileNo", getProp d "mobile_no", getProp d "phone", getProp d "phone_number", getProp d "phoneNumber"])
      else jsGet d "mobile_no") := by
  by_cases hg : (truthy (getProp d "mobile") ||
          truthy (getProp d "mobileNo") ||
          truthy (getProp d "mobile_no") ||
          truthy (getProp d "phone") ||
          truthy (getProp d "phone_number") ||
          truthy (getProp d "phoneNumber")) = true
  · simp only [normalizeFieldNames, normAge, normGender, normZip, normCity,
      normState, normWebsite, normIndustry, normJobTitle, normMessage,
      normCountry, normCompany, normMobile, normEmail, normLastName,
      normFirstName, apply_ite (fun o => jsGet o "mobile_no"),
      jsGet_setProp_eq, hg, if_true, ite_self]
    simp [jsOr_firstTruthy6 _ _ _ _ _ _ hg]
  · simp only [normalizeFieldNames, normAge, normGender, normZip, normCity,
      normState, normWebsite, normIndustry, normJobTitle, normMessage,
      normCountry, normCompany, normMobile, normEmail, normLastName,
      normFirstName, apply_ite (fun o => jsGet o "mobile_no"),
      jsGet_setProp_eq, hg, if_false, ite_self]
    simp [hg]

theorem nf_mobileNo (d : Obj) :
    jsGet (normalizeFieldNames d) "mobileNo" =
      (if truthy (getProp d "mobile") ||
          truthy (getProp d "mobileNo") ||
          truthy (getProp d "mobile_no") ||
          truthy (getProp d "phone") ||
          truthy (getProp d "phone_number") ||
          truthy (getProp d "phoneNumber") then
        some (firstTruthy [getProp d "mobile", getProp d "mobileNo", getProp d "mobile_no", getProp d "phone", getProp d "phone_number", getProp d "phoneNumber"])
      else jsGet d "mobileNo") := by
  by_cases hg : (truthy (getProp d "mobile") ||
          truthy (getProp d "mobileNo") ||
          truthy (getProp d "mobile_no") ||
          truthy (getProp d "phone") ||
          truthy (getProp d "phone_number") ||
          truthy (getProp d "phoneNumber")) = true
  · simp only [normalizeFieldNames, normAge, normGender, normZip, normCity,
      normState, normWebsite, normIndustry, normJobTitle, normMessage,
      normCountry, normCompany, normMobile, normEmail, normLastName,
      normFirstName, apply_ite (fun o => jsGet o "mobileNo"),
      jsGet_setProp_eq, hg, if_true, ite_self]
    simp [jsOr_firstTruthy6 _ _ _ _ _ _ hg]
  · simp only [normalizeFieldNames, normAge, normGender, normZip, normCity,
      normState, normWebsite, normIndustry, normJobTitle, normMessage,
      normCountry, normCompany, normMobile, normEmail, normLastName,
      normFirstName, apply_ite (fun o => jsGet o "mobileNo"),
      jsGet_setProp_eq, hg, if_false, ite_self]
    simp [hg]

theorem nf_phone (d : Obj) :
    jsGet (normalizeFieldNames d) "phone" =
      (if truthy (getProp d "mobile") ||
          truthy (getProp d "mobileNo") ||
          truthy (getProp d "mobile_no") ||
          truthy (getProp d "phone") ||
          truthy (getProp d "phone_number") ||
          truthy (getProp d "phoneNumber") then
        some (firstTruthy [getProp d "mobile", getProp d "mobileNo", getProp d "mobile_no", getProp d "phone", getProp d "phone_number", getProp d "phoneNumber"])
      else jsGet d "phone") := by
  by_cases hg : (truthy (getProp d "mobile") ||
          truthy (getProp d "mobileNo") ||
          truthy (getProp d "mobile_no") ||
          truthy (getProp d "phone") ||
          truthy (getProp d "phone_number") ||
          truthy (getProp d "phoneNumber")) = true
  · simp only [normalizeFieldNames, normAge, normGender, normZip, normCity,
      normState, normWebsite, normIndustry, normJobTitle, normMessage,
      normCountry, normCompany, normMobile, normEmail, normLastName,
      normFirstName, apply_ite (fun o => jsGet o "phone"),
      jsGet_setProp_eq, hg, if_true, ite_self]
    simp [jsOr_firstTruthy6 _ _ _ _ _ _ hg]
  · simp only [normalizeFieldNames, normAge, normGender, normZip, normCity,
      normState, normWebsite, normIndustry, normJobTitle, normMessage,
      normCountry, normCompany, normMobile, normEmail, normLastName,
      normFirstName, apply_ite (fun o => jsGet o "phone"),
      jsGet_setProp_eq, hg, if_false, ite_self]
    simp [hg]

theorem nf_company (d : Obj) :
    jsGet (normalizeFieldNames d) "company" =
      (if truthy (getProp d "company") ||
          truthy (getProp d "company_name") ||
          truthy (getProp d "companyName") ||
          truthy (getProp d "organization") then
        some (firstTruthy [getProp d "company", getProp d "company_name", getProp d "companyName", getProp d "organization"])
      else jsGet d "company") := by
  by_cases hg : (truthy (getProp d "company") ||
          truthy (getProp d "company_name") ||
          truthy (getProp d "companyName") ||
          truthy (getProp d "organization")) = true
  · simp only [normalizeFieldNames, normAge, normGender, normZip, normCity,
      normState, normWebsite, normIndustry, normJobTitle, normMessage,
      normCountry, normCompany, normMobile, normEmail, normLastName,
      normFirstName, apply_ite (fun o => jsGet o "company"),
      jsGet_setProp_eq, hg, if_true, ite_self]
    simp [jsOr_firstTruthy4 _ _ _ _ hg]
  · simp only [normalizeFieldNames, normAge, normGender, normZip, normCity,
      normState, normWebsite, normIndustry, normJobTitle, normMessage,
      normCountry, normCompany, normMobile, normEmail, normLastName,
      normFirstName, apply_ite (fun o => jsGet o "company"),
      jsGet_setProp_eq, hg, if_false, ite_self]
    simp [hg]

theorem nf_company_name (d : Obj) :
    jsGet (normalizeFieldNames d) "company_name" =
      (if truthy (getProp d "company") ||
          truthy (getProp d "company_name") ||
          truthy (getProp d "companyName") ||
          truthy (getProp d "organization") then
        some (firstTruthy [getProp d "company", getProp d "company_name", getProp d "companyName", getProp d "organization"])
      else jsGet d "company_name") := by
  by_cases hg : (truthy (getProp d "company") ||
          truthy (getProp d "company_name") ||
          truthy (getProp d "companyName") ||
          truthy (getProp d "organization")) = true
  · simp only [normalizeFieldNames, normAge, normGender, normZip, normCity,
      normState, normWebsite, normIndustry, normJobTitle, normMessage,
      normCountry, normCompany, normMobile, normEmail, normLastName,
      normFirstName, apply_ite (fun o => jsGet o "company_name"),
      jsGet_setProp_eq, hg, if_true, ite_self]
    simp [jsOr_firstTruthy4 _ _ _ _ hg]
  · simp only [normalizeFieldNames, normAge, normGender, normZip, normCity,
      normState, normWebsite, normIndustry, normJobTitle, normMessage,
      normCountry, normCompany, normMobile, normEmail, normLastName,
      normFirstName, apply_ite (fun o => jsGet o "company_name"),
      jsGet_setProp_eq, hg, if_false, ite_self]
    simp [hg]

theorem nf_country (d : Obj) :
    jsGet (normalizeFieldNames d) "country" =
      (if truthy (getProp d "country") ||
          truthy (getProp d "country_code") ||
          truthy (getProp d "countryCode") then
        some (firstTruthy [getProp d "country", getProp d "country_code", getProp d "countryCode"])
      else jsGet d "country") := by
  by_cases hg : (truthy (getProp d "country") ||
          truthy (getProp d "country_code") ||
          truthy (getProp d "countryCode")) = true
  · simp only [normalizeFieldNames, normAge, normGender, normZip, normCity,
      normState, normWebsite, normIndustry, normJobTitle, normMessage,
      normCountry, normCompany, normMobile, normEmail, normLastName,
      normFirstName, apply_ite (fun o => jsGet o "country"),
      jsGet_setProp_eq, hg, if_true, ite_self]
    simp [jsOr_firstTruthy3 _ _ _ hg]
  · simp only [normalizeFieldNames, normAge, normGender, normZip, normCity,
      normState, normWebsite, normIndustry, normJobTitle, normMessage,
      normCountry, normCompany, normMobile, normEmail, normLastName,
      normFirstName, apply_ite (fun o => jsGet o "country"),
      jsGet_setProp_eq, hg, if_false, ite_self]
    simp [hg]

theorem nf_message (d : Obj) :
    jsGet (normalizeFieldNames d) "message" =
      (if truthy (getProp d "message") ||
          truthy (getProp d "comments") ||
          truthy (getProp d "description") ||
          truthy (getProp d "notes") then
        some (firstTruthy [getProp d "message", getProp d "comments", getProp d "description", getProp d "notes"])
      else jsGet d "message") := by
  by_cases hg : (truthy (getProp d "message") ||
          truthy (getProp d "comments") ||
          truthy (getProp d "description") ||
          truthy (getProp d "notes")) = true
  · simp only [normalizeFieldNames, normAge, normGender, normZip, normCity,
      normState, normWebsite, normIndustry, normJobTitle, normMessage,
      normCountry, normCompany, normMobile, normEmail, normLastName,
      normFirstName, apply_ite (fun o => jsGet o "message"),
      jsGet_setProp_eq, hg, if_true, ite_self]
    simp [jsOr_firstTruthy4 _ _ _ _ hg]
  · simp only [normalizeFieldNames, normAge, normGender, normZip, normCity,
      normState, normWebsite, normIndustry, normJobTitle, normMessage,
      normCountry, normCompany, normMobile, normEmail, normLastName,
      normFirstName, apply_ite (fun o => jsGet o "message"),
      jsGet_setProp_eq, hg, if_false, ite_self]
    simp [hg]

theorem nf_comments (d : Obj) :
    jsGet (normalizeFieldNames d) "comments" =
      (if truthy (getProp d "message") ||
          truthy (getProp d "comments") ||
          truthy (getProp d "description") ||
          truthy (getProp d "notes") then
        some (firstTruthy [getProp d "message", getProp d "comments", getProp d "description", getProp d "notes"])
      else jsGet d "comments") := by
  by_cases hg : (truthy (getProp d "message") ||
          truthy (getProp d "comments") ||
          truthy (getProp d "description") ||
          truthy (getProp d "notes")) = true
  · simp only [normalizeFieldNames, normAge, normGender, normZip, normCity,
      normState, normWebsite, normIndustry, normJobTitle, normMessage,
      normCountry, normCompany, normMobile, normEmail, normLastName,
      normFirstName, apply_ite (fun o => jsGet o "comments"),
      jsGet_setProp_eq, hg, if_true, ite_self]
    simp [jsOr_firstTruthy4 _ _ _ _ hg]
  · simp only [normalizeFieldNames, normAge, normGender, normZip, normCity,
      normState, normWebsite, normIndustry, normJobTitle, normMessage,
      normCountry, normCompany, normMobile, normEmail, normLastName,
      normFirstName, apply_ite (fun o => jsGet o "comments"),
      jsGet_setProp_eq, hg, if_false, ite_self]
    simp [hg]

theorem nf_job_title (d : Obj) :
    jsGet (normalizeFieldNames d) "job_title" =
      (if truthy (getProp d "jobTitle") ||
          truthy (getProp d "job_title") ||
          truthy (getProp d "title") ||
          truthy (getProp d "position") then
        some (firstTruthy [getProp d "jobTitle", getProp d "job_title", getProp d "title", getProp d "position"])
      else jsGet d "job_title") := by
  by_cases hg : (truthy (getProp d "jobTitle") ||
          truthy (getProp d "job_title") ||
          truthy (getProp d "title") ||
          truthy (getProp d "position")) = true
  · simp only [normalizeFieldNames, normAge, normGender, normZip, normCity,
      normState, normWebsite, normIndustry, normJobTitle, normMessage,
      normCountry, normCompany, normMobile, normEmail, normLastName,
      normFirstName, apply_ite (fun o => jsGet o "job_title"),
      jsGet_setProp_eq, hg, if_true, ite_self]
    simp [jsOr_firstTruthy4 _ _ _ _ hg]
  · simp only [normalizeFieldNames, normAge, normGender, normZip, normCity,
      normState, normWebsite, normIndustry, normJobTitle, normMessage,
      normCountry, normCompany, normMobile, normEmail, normLastName,
      normFirstName, apply_ite (fun o => jsGet o "job_title"),
      jsGet_setProp_eq, hg, if_false, ite_self]
    simp [hg]

theorem nf_jobTitle (d : Obj) :
    jsGet (normalizeFieldNames d) "jobTitle" =
      (if truthy (getProp d "jobTitle") ||
          truthy (getProp d "job_title") ||
          truthy (getProp d "title") ||
          truthy (getProp d "position") then
        some (firstTruthy [getProp d "jobTitle", getProp d "job_title", getProp d "title", getProp d "position"])
      else jsGet d "jobTitle") := by
  by_cases hg : (truthy (getProp d "jobTitle") ||
          truthy (getProp d "job_title") ||
          truthy (getProp d "title") ||
          truthy (getProp d "position")) = true
  · simp only [normalizeFieldNames, normAge, normGender, normZip, normCity,
      normState, normWebsite, normIndustry, normJobTitle, normMessage,
      normCountry, normCompany, normMobile, normEmail, normLastName,
      normFirstName, apply_ite (fun o => jsGet o "jobTitle"),
      jsGet_setProp_eq, hg, if_true, ite_self]
    simp [jsOr_firstTruthy4 _ _ _ _ hg]
  · simp only [normalizeFieldNames, normAge, normGender, normZip, normCity,
      normState, normWebsite, normIndustry, normJobTitle, normMessage,
      normCountry, normCompany, normMobile, normEmail, normLastName,
      normFirstName, apply_ite (fun o => jsGet o "jobTitle"),
      jsGet_setProp_eq, hg, if_false, ite_self]
    simp [hg]

theorem nf_industry (d : Obj) :
    jsGet (normalizeFieldNames d) "industry" =
      (if truthy (getProp d "industry") ||
          truthy (getProp d "business_type") ||
          truthy (getProp d "businessType") then
        some (firstTruthy [getProp d "industry", getProp d "business_type", getProp d "businessType"])
      else jsGet d "industry") := by
  by_cases hg : (truthy (getProp d "industry") ||
          truthy (getProp d "business_type") ||
          truthy (getProp d "businessType")) = true
  · simp only [normalizeFieldNames, normAge, normGender, normZip, normCity,
      normState, normWebsite, normIndustry, normJobTitle, normMessage,
      normCountry, normCompany, normMobile, normEmail, normLastName,
      normFirstName, apply_ite (fun o => jsGet o "industry"),
      jsGet_setProp_eq, hg, if_true, ite_self]
    simp [jsOr_firstTruthy3 _ _ _ hg]
  · simp only [normalizeFieldNames, normAge, normGender, normZip, normCity,
      normState, normWebsite, normIndustry, normJobTitle, normMessage,
      normCountry, normCompany, normMobile, normEmail, normLastName,
      normFirstName, apply_ite (fun o => jsGet o "industry"),
      jsGet_setProp_eq, hg, if_false, ite_self]
    simp [hg]

theorem nf_business_type (d : Obj) :
    jsGet (normalizeFieldNames d) "business_type" =
      (if truthy (getProp d "industry") ||
          truthy (getProp d "business_type") ||
          truthy (getProp d "businessType") then
        some (firstTruthy [getProp d "industry", getProp d "business_type", getProp d "businessType"])
      else jsGet d "business_type") := by
  by_cases hg : (truthy (getProp d "industry") ||
          truthy (getProp d "business_type") ||
          truthy (getProp d "businessType")) = true
  · simp only [normalizeFieldNames, normAge, normGender, normZip, normCity,
      normState, normWebsite, normIndustry, normJobTitle, normMessage,
      normCountry, normCompany, normMobile, normEmail, normLastName,
      normFirstName, apply_ite (fun o => jsGet o "business_type"),
      jsGet_setProp_eq, hg, if_true, ite_self]
    simp [jsOr_firstTruthy3 _ _ _ hg]
  · simp only [normalizeFieldNames, normAge, normGender, normZip, normCity,
      normState, normWebsite, normIndustry, normJobTitle, normMessage,
      normCountry, normCompany, normMobile, normEmail, normLastName,
      normFirstName, apply_ite (fun o => jsGet o "business_type"),
      jsGet_setProp_eq, hg, if_false, ite_self]
    simp [hg]

theorem nf_website (d : Obj) :
    jsGet (normalizeFieldNames d) "website" =
      (if truthy (getProp d "website") ||
          truthy (getProp d "website_url") ||
          truthy (getProp d "websiteUrl") ||
          truthy (getProp d "url") then
        some (firstTruthy [getProp d "website", getProp d "website_url", getProp d "websiteUrl", getProp d "url"])
      else jsGet d "website") := by
  by_cases hg : (truthy (getProp d "website") ||
          truthy (getProp d "website_url") ||
          truthy (getProp d "websiteUrl") ||
          truthy (getProp d "url")) = true
  · simp only [normalizeFieldNames, normAge, normGender, normZip, normCity,
      normState, normWebsite, normIndustry, normJobTitle, normMessage,
      normCountry, normCompany, normMobile, normEmail, normLastName,
      normFirstName, apply_ite (fun o => jsGet o "website"),
      jsGet_setProp_eq, hg, if_true, ite_self]
    simp [jsOr_firstTruthy4 _ _ _ _ hg]
  · simp only [normalizeFieldNames, normAge, normGender, normZip, normCity,
      normState, normWebsite, normIndustry, normJobTitle, normMessage,
      normCountry, normCompany, normMobile, normEmail, normLastName,
      normFirstName, apply_ite (fun o => jsGet o "website"),
      jsGet_setProp_eq, hg, if_false, ite_self]
    simp [hg]

theorem nf_website_url (d : Obj) :
    jsGet (normalizeFieldNames d) "website_url" =
      (if truthy (getProp d "website") ||
          truthy (getProp d "website_url") ||
          truthy (getProp d "websiteUrl") ||
          truthy (getProp d "url") then
        some (firstTruthy [getProp d "website", getProp d "website_url", getProp d "websiteUrl", getProp d "url"])
      else jsGet d "website_url") := by
  by_cases hg : (truthy (getProp d "website") ||
          truthy (getProp d "website_url") ||
          truthy (getProp d "websiteUrl") ||
          truthy (getProp d "url")) = true
  · simp only [normalizeFieldNames, normAge, normGender, normZip, normCity,
      normState, normWebsite, normIndustry, normJobTitle, normMessage,
      normCountry, normCompany, normMobile, normEmail, normLastName,
      normFirstName, apply_ite (fun o => jsGet o "website_url"),
      jsGet_setProp_eq, hg, if_true, ite_self]
    simp [jsOr_firstTruthy4 _ _ _ _ hg]
  · simp only [normalizeFieldNames, normAge, normGender, normZip, normCity,
      normState, normWebsite, normIndustry, normJobTitle, normMessage,
      normCountry, normCompany, normMobile, normEmail, normLastName,
      normFirstName, apply_ite (fun o => jsGet o "website_url"),
      jsGet_setProp_eq, hg, if_false, ite_self]
    simp [hg]

theorem nf_state (d : Obj) :
    jsGet (normalizeFieldNames d) "state" =
      (if truthy (getProp d "state") ||
          truthy (getProp d "region") ||
          truthy (getProp d "province") then
        some (firstTruthy [getProp d "state", getProp d "region", getProp d "province"])
      else jsGet d "state") := by
  by_cases hg : (truthy (getProp d "state") ||
          truthy (getProp d "region") ||
          truthy (getProp d "province")) = true
  · simp only [normalizeFieldNames, normAge, normGender, normZip, normCity,
      normState, normWebsite, normIndustry, normJobTitle, normMessage,
      normCountry, normCompany, normMobile, normEmail, normLastName,
      normFirstName, apply_ite (fun o => jsGet o "state"),
      jsGet_setProp_eq, hg, if_true, ite_self]
    simp [jsOr_firstTruthy3 _ _ _ hg]
  · simp only [normalizeFieldNames, normAge, normGender, normZip, normCity,
      normState, normWebsite, normIndustry, normJobTitle, normMessage,
      normCountry, normCompany, normMobile, normEmail, normLastName,
      normFirstName, apply_ite (fun o => jsGet o "state"),
      jsGet_setProp_eq, hg, if_false, ite_self]
    simp [hg]

theorem nf_region (d : Obj) :
    jsGet (normalizeFieldNames d) "region" =
      (if truthy (getProp d "state") ||
          truthy (getProp d "region") ||
          truthy (getProp d "province") then
        some (firstTruthy [getProp d "state", getProp d "region", getProp d "province"])
      else jsGet d "region") := by
  by_cases hg : (truthy (getProp d "state") ||
          truthy (getProp d "region") ||
          truthy (getProp d "province")) = true
  · simp only [normalizeFieldNames, normAge, normGender, normZip, normCity,
      normState, normWebsite, normIndustry, normJobTitle, normMessage,
      normCountry, normCompany, normMobile, normEmail, normLastName,
      normFirstName, apply_ite (fun o => jsGet o "region"),
      jsGet_setProp_eq, hg, if_true, ite_self]
    simp [jsOr_firstTruthy3 _ _ _ hg]
  · simp only [normalizeFieldNames, normAge, normGender, normZip, normCity,
      normState, normWebsite, normIndustry, normJobTitle, normMessage,
      normCountry, normCompany, normMobile, normEmail, normLastName,
      normFirstName, apply_ite (fun o => jsGet o "region"),
      jsGet_setProp_eq, hg, if_false, ite_self]
    simp [hg]

theorem nf_city (d : Obj) :
    jsGet (normalizeFieldNames d) "city" =
      (if truthy (getProp d "city") ||
          truthy (getProp d "town") then
        some (firstTruthy [getProp d "city", getProp d "town"])
      else jsGet d "city") := by
  by_cases hg : (truthy (getProp d "city") ||
          truthy (getProp d "town")) = true
  · simp only [normalizeFieldNames, normAge, normGender, normZip, normCity,
      normState, normWebsite, normIndustry, normJobTitle, normMessage,
      normCountry, normCompany, normMobile, normEmail, normLastName,
      normFirstName, apply_ite (fun o => jsGet o "city"),
      jsGet_setProp_eq, hg, if_true, ite_self]
    simp [jsOr_firstTruthy2 _ _ hg]
  · simp only [normalizeFieldNames, normAge, normGender, normZip, normCity,
      normState, normWebsite, normIndustry, normJobTitle, normMessage,
      normCountry, normCompany, normMobile, normEmail, normLastName,
      normFirstName, apply_ite (fun o => jsGet o "city"),
      jsGet_setProp_eq, hg, if_false, ite_self]
    simp [hg]

theorem nf_zip_code (d : Obj) :
    jsGet (normalizeFieldNames d) "zip_code" =
      (if truthy (getProp d "zip") ||
          truthy (getProp d "zipcode") ||
          truthy (getProp d "zip_code") ||
          truthy (getProp d "postal_code") ||
          truthy (getProp d "postalCode") then
        some (firstTruthy [getProp d "zip", getProp d "zipcode", getProp d "zip_code", getProp d "postal_code", getProp d "postalCode"])
      else jsGet d "zip_code") := by
  by_cases hg : (truthy (getProp d "zip") ||
          truthy (getProp d "zipcode") ||
          truthy (getProp d "zip_code") ||
          truthy (getProp d "postal_code") ||
          truthy (getProp d "postalCode")) = true
  · simp only [normalizeFieldNames, normAge, normGender, normZip, normCity,
      normState, normWebsite, normIndustry, normJobTitle, normMessage,
      normCountry, normCompany, normMobile, normEmail, normLastName,
      normFirstName, apply_ite (fun o => jsGet o "zip_code"),
      jsGet_setProp_eq, hg, if_true, ite_self]
    simp [jsOr_firstTruthy5 _ _ _ _ _ hg]
  · simp only [normalizeFieldNames, normAge, normGender, normZip, normCity,
      normState, normWebsite, normIndustry, normJobTitle, normMessage,
      normCountry, normCompany, normMobile, normEmail, normLastName,
      normFirstName, apply_ite (fun o => jsGet o "zip_code"),
      jsGet_setProp_eq, hg, if_false, ite_self]
    simp [hg]

theorem nf_postal_code (d : Obj) :
    jsGet (normalizeFieldNames d) "postal_code" =
      (if truthy (getProp d "zip") ||
          truthy (getProp d "zipcode") ||
          truthy (getProp d "zip_code") ||
          truthy (getProp d "postal_code") ||
          truthy (getProp d "postalCode") then
        some (firstTruthy [getProp d "zip", getProp d "zipcode", getProp d "zip_code", getProp d "postal_code", getProp d "postalCode"])
      else jsGet d "postal_code") := by
  by_cases hg : (truthy (getProp d "zip") ||
          truthy (getProp d "zipcode") ||
          truthy (getProp d "zip_code") ||
          truthy (getProp d "postal_code") ||
          truthy (getProp d "postalCode")) = true
  · simp only [normalizeFieldNames, normAge, normGender, normZip, normCity,
      normState, normWebsite, normIndustry, normJobTitle, normMessage,
      normCountry, normCompany, normMobile, normEmail, normLastName,
      normFirstName, apply_ite (fun o => jsGet o "postal_code"),
      jsGet_setProp_eq, hg, if_true, ite_self]
    simp [jsOr_firstTruthy5 _ _ _ _ _ hg]
  · simp only [normalizeFieldNames, normAge, normGender, normZip, normCity,
      normState, normWebsite, normIndustry, normJobTitle, normMessage,
      normCountry, normCompany, normMobile, normEmail, normLastName,
      normFirstName, apply_ite (fun o => jsGet o "postal_code"),
      jsGet_setProp_eq, hg, if_false, ite_self]
    simp [hg]

theorem nf_gender (d : Obj) :
    jsGet (normalizeFieldNames d) "gender" =
      (if truthy (getProp d "gender") ||
          truthy (getProp d "sex") then
        some (firstTruthy [getProp d "gender", getProp d "sex"])
      else jsGet d "gender") := by
  by_cases hg : (truthy (getProp d "gender") ||
          truthy (getProp d "sex")) = true
  · simp only [normalizeFieldNames, normAge, normGender, normZip, normCity,
      normState, normWebsite, normIndustry, normJobTitle, normMessage,
      normCountry, normCompany, normMobile, normEmail, normLastName,
      normFirstName, apply_ite (fun o => jsGet o "gender"),
      jsGet_setProp_eq, hg, if_true, ite_self]
    simp [jsOr_firstTruthy2 _ _ hg]
  · simp only [normalizeFieldNames, normAge, normGender, normZip, normCity,
      normState, normWebsite, normIndustry, normJobTitle, normMessage,
      normCountry, normCompany, normMobile, normEmail, normLastName,
      normFirstName, apply_ite (fun o => jsGet o "gender"),
      jsGet_setProp_eq, hg, if_false, ite_self]
    simp [hg]

theorem nf_age (d : Obj) :
    jsGet (normalizeFieldNames d) "age" =
      (if truthy (getProp d "age") ||
          truthy (getProp d "date_of_birth") ||
          truthy (getProp d "dob") ||
          truthy (getProp d "birthdate") then
        some (getProp d "age")
      else jsGet d "age") := by
  by_cases hg : (truthy (getProp d "age") ||
          truthy (getProp d "date_of_birth") ||
          truthy (getProp d "dob") ||
          truthy (getProp d "birthdate")) = true
  · simp only [normalizeFieldNames, normAge, normGender, normZip, normCity,
      normState, normWebsite, normIndustry, normJobTitle, normMessage,
      normCountry, normCompany, normMobile, normEmail, normLastName,
      normFirstName, apply_ite (fun o => jsGet o "age"),
      jsGet_setProp_eq, hg, if_true, ite_self]
    simp
  · simp only [normalizeFieldNames, normAge, normGender, normZip, normCity,
      normState, normWebsite, normIndustry, normJobTitle, normMessage,
      normCountry, normCompany, normMobile, normEmail, normLastName,
      normFirstName, apply_ite (fun o => jsGet o "age"),
      jsGet_setProp_eq, hg, if_false, ite_self]
    simp [hg]

theorem nf_date_of_birth (d : Obj) :
    jsGet (normalizeFieldNames d) "date_of_birth" =
      (if truthy (getProp d "age") ||
          truthy (getProp d "date_of_birth") ||
          truthy (getProp d "dob") ||
          truthy (getProp d "birthdate") then
        some (jsOr (getProp d "date_of_birth")
          (jsOr (getProp d "dob") (getProp d "birthdate")))
      else jsGet d "date_of_birth") := by
  by_cases hg : (truthy (getProp d "age") ||
          truthy (getProp d "date_of_birth") ||
          truthy (getProp d "dob") ||
          truthy (getProp d "birthdate")) = true
  · simp only [normalizeFieldNames, normAge, normGender, normZip, normCity,
      normState, normWebsite, normIndustry, normJobTitle, normMessage,
      normCountry, normCompany, normMobile, normEmail, normLastName,
      normFirstName, apply_ite (fun o => jsGet o "date_of_birth"),
      jsGet_setProp_eq, hg, if_true, ite_self]
  · simp only [normalizeFieldNames, normAge, normGender, normZip, normCity,
      normState, normWebsite, normIndustry, normJobTitle, normMessage,
      normCountry, normCompany, normMobile, normEmail, normLastName,
      normFirstName, apply_ite (fun o => jsGet o "date_of_birth"),
      jsGet_setProp_eq, hg, if_false, ite_self]
    simp [hg]


/-- The alias groups of `normalizeFieldNames`, except the age/birth-date
group: guard aliases in source priority order, and the canonical output
keys each group assigns. -/
def aliasGroups : List (List String × List String) :=
  [(["firstName", "first_name", "firstname"], ["firstName", "first_name"]),
   (["lastName", "last_name", "lastname"], ["lastName", "last_name"]),
   (["email", "lead_email", "email_address", "user_email"], ["email", "lead_email"]),
   (["mobile", "mobileNo", "mobile_no", "phone", "phone_number", "phoneNumber"],
    ["mobile_no", "mobileNo", "phone"]),
   (["company", "company_name", "companyName", "organization"],
    ["company", "company_name"]),
   (["country", "country_code", "countryCode"], ["country"]),
   (["message", "comments", "description", "notes"], ["message", "comments"]),
   (["jobTitle", "job_title", "title", "position"], ["job_title", "jobTitle"]),
   (["industry", "business_type", "businessType"], ["industry", "business_type"]),
   (["website", "website_url", "websiteUrl", "url"], ["website", "website_url"]),
   (["state", "region", "province"], ["state", "region"]),
   (["city", "town"], ["city"]),
   (["zip", "zipcode", "zip_code", "postal_code", "postalCode"],
    ["zip_code", "postal_code"]),
   (["gender", "sex"], ["gender"])]

/-- Counterexample to C6: on input `{dob: "1990-01-01"}` the birth-date
group is present with first matching alias value `"1990-01-01"`, yet the
canonical output key `age` is bound to `undefined` in the output
(`normalized.age = data.age` copies the absent `age` input), so `age` is
neither populated with the first matching alias value nor omitted. -/
theorem c6_counterexample_age_undefined :
    truthy (getProp [("dob", JsVal.str "1990-01-01")] "dob") = true ∧
    jsGet (normalizeFieldNames [("dob", JsVal.str "1990-01-01")]) "age" =
      some JsVal.undefined ∧
    some JsVal.undefined ≠ some (JsVal.str "1990-01-01") ∧
    some JsVal.undefined ≠ (none : Option JsVal) := by
  decide

/-- C6 as amended: for every input mapping and every alias group other
than the birth-date group, if any alias of the group is present and
non-empty then every canonical output key of the group is bound to the
first matching alias value in the group's priority order, and otherwise
the group leaves those keys exactly as they are in the input (no
defaulting).  In the birth-date group, `date_of_birth` is bound to
`date_of_birth || dob || birthdate` while `age` is always bound to the
raw `age` input — `undefined` when only a date alias is present. -/
theorem c6_normalize_amended (d : Obj) :
    (∀ g ∈ aliasGroups, ∀ key ∈ g.2,
      jsGet (normalizeFieldNames d) key =
        (if g.1.any (fun a => truthy (getProp d a)) then
          some (firstTruthy (g.1.map (getProp d)))
        else jsGet d key)) ∧
    (jsGet (normalizeFieldNames d) "age" =
      (if truthy (getProp d "age") || truthy (getProp d "date_of_birth") ||
          truthy (getProp d "dob") || truthy (getProp d "birthdate") then
        some (getProp d "age")
      else jsGet d "age")) ∧
    (jsGet (normalizeFieldNames d) "date_of_birth" =
      (if truthy (getProp d "age") || truthy (getProp d "date_of_birth") ||
          truthy (getProp d "dob") || truthy (getProp d "birthdate") then
        some (jsOr (getProp d "date_of_birth")
          (jsOr (getProp d "dob") (getProp d "birthdate")))
      else jsGet d "date_of_birth")) := by
  refine ⟨?_, nf_age d, nf_date_of_birth d⟩
  intro g hg key hk
  fin_cases hg <;> simp only [List.mem_cons, List.not_mem_nil, or_false] at hk
  · rcases hk with hk | hk <;> subst hk <;>
      simp [nf_firstName d, nf_first_name d, List.any_cons, Bool.or_assoc]
  · rcases hk with hk | hk <;> subst hk <;>
      simp [nf_lastName d, nf_last_name d, List.any_cons, Bool.or_assoc]
  · rcases hk with hk | hk <;> subst hk <;>
      simp [nf_email d, nf_lead_email d, List.any_cons, Bool.or_assoc]
  · rcases hk with hk | hk | hk <;> subst hk <;>
      simp [nf_mobile_no d, nf_mobileNo d, nf_phone d, List.any_cons, Bool.or_assoc]
  · rcases hk with hk | hk <;> subst hk <;>
      simp [nf_company d, nf_company_name d, List.any_cons, Bool.or_assoc]
  · subst hk
    simp [nf_country d, List.any_cons, Bool.or_assoc]
  · rcases hk with hk | hk <;> subst hk <;>
      simp [nf_message d, nf_comments d, List.any_cons, Bool.or_assoc]
  · rcases hk with hk | hk <;> subst hk <;>
      simp [nf_job_title d, nf_jobTitle d, List.any_cons, Bool.or_assoc]
  · rcases hk with hk | hk <;> subst hk <;>
      simp [nf_industry d, nf_business_type d, List.any_cons, Bool.or_assoc]
  · rcases hk with hk | hk <;> subst hk <;>
      simp [nf_website d, nf_website_url d, List.any_cons, Bool.or_assoc]
  · rcases hk with hk | hk <;> subst hk <;>
      simp [nf_state d, nf_region d, List.any_cons, Bool.or_assoc]
  · subst hk
    simp [nf_city d, List.any_cons, Bool.or_assoc]
  · rcases hk with hk | hk <;> subst hk <;>
      simp [nf_zip_code d, nf_postal_code d, List.any_cons, Bool.or_assoc]
  · subst hk
    simp [nf_gender d, List.any_cons, Bool.or_assoc]

/-- Witness for C6 (the spec's own example): input `{first_name: "Jo"}`
normalizes to an output binding both `firstName` and `first_name` to
`"Jo"`. -/
theorem c6_normalize_amended_witness :
    jsGet (normalizeFieldNames [("first_name", JsVal.str "Jo")]) "firstName" =
      some (JsVal.str "Jo") ∧
    jsGet (normalizeFieldNames [("first_name", JsVal.str "Jo")]) "first_name" =
      some (JsVal.str "Jo") := by
  have h1 := (c6_normalize_amended [("first_name", JsVal.str "Jo")]).1
    (["firstName", "first_name", "firstname"], ["firstName", "first_name"])
    (by decide) "firstName" (by decide)
  have h2 := (c6_normalize_amended [("first_name", JsVal.str "Jo")]).1
    (["firstName", "first_name", "firstname"], ["firstName", "first_name"])
    (by decide) "first_name" (by decide)
  rw [h1, h2]
  decide

/-- Every key assigned by any group of `normalizeFieldNames`. -/
def normWrittenKeys : List String :=
  ["firstName", "first_name", "lastName", "last_name", "email", "lead_email", "mobile_no", "mobileNo", "phone", "company", "company_name", "country", "message", "comments", "job_title", "jobTitle", "industry", "business_type", "website", "website_url", "state", "region", "city", "zip_code", "postal_code", "gender", "age", "date_of_birth"]

theorem nf_preserve (d : Obj) (k : String) (h : k ∉ normWrittenKeys) :
    jsGet (normalizeFieldNames d) k = jsGet d k := by
  simp only [normWrittenKeys, List.mem_cons, List.not_mem_nil, or_false] at h
  push_neg at h
  obtain ⟨e1, e2, e3, e4, e5, e6, e7, e8, e9, e10, e11, e12, e13, e14, e15, e16, e17, e18, e19, e20, e21, e22, e23, e24, e25, e26, e27, e28⟩ := h
  have s1 : ("firstName" = k) = False := eq_false (fun e => e1 e.symm)
  have s2 : ("first_name" = k) = False := eq_false (fun e => e2 e.symm)
  have s3 : ("lastName" = k) = False := eq_false (fun e => e3 e.symm)
  have s4 : ("last_name" = k) = False := eq_false (fun e => e4 e.symm)
  have s5 : ("email" = k) = False := eq_false (fun e => e5 e.symm)
  have s6 : ("lead_email" = k) = False := eq_false (fun e => e6 e.symm)
  have s7 : ("mobile_no" = k) = False := eq_false (fun e => e7 e.symm)
  have s8 : ("mobileNo" = k) = False := eq_false (fun e => e8 e.symm)
  have s9 : ("phone" = k) = False := eq_false (fun e => e9 e.symm)
  have s10 : ("company" = k) = False := eq_false (fun e => e10 e.symm)
  have s11 : ("company_name" = k) = False := eq_false (fun e => e11 e.symm)
  have s12 : ("country" = k) = False := eq_false (fun e => e12 e.symm)
  have s13 : ("message" = k) = False := eq_false (fun e => e13 e.symm)
  have s14 : ("comments" = k) = False := eq_false (fun e => e14 e.symm)
  have s15 : ("job_title" = k) = False := eq_false (fun e => e15 e.symm)
  have s16 : ("jobTitle" = k) = False := eq_false (fun e => e16 e.symm)
  have s17 : ("industry" = k) = False := eq_false (fun e => e17 e.symm)
  have s18 : ("business_type" = k) = False := eq_false (fun e => e18 e.symm)
  have s19 : ("website" = k) = False := eq_false (fun e => e19 e.symm)
  have s20 : ("website_url" = k) = False := eq_false (fun e => e20 e.symm)
  have s21 : ("state" = k) = False := eq_false (fun e => e21 e.symm)
  have s22 : ("region" = k) = False := eq_false (fun e => e22 e.symm)
  have s23 : ("city" = k) = False := eq_false (fun e => e23 e.symm)
  have s24 : ("zip_code" = k) = False := eq_false (fun e => e24 e.symm)
  have s25 : ("postal_code" = k) = False := eq_false (fun e => e25 e.symm)
  have s26 : ("gender" = k) = False := eq_false (fun e => e26 e.symm)
  have s27 : ("age" = k) = False := eq_false (fun e => e27 e.symm)
  have s28 : ("date_of_birth" = k) = False := eq_false (fun e => e28 e.symm)
  simp only [normalizeFieldNames, normAge, normGender, normZip, normCity,
    normState, normWebsite, normIndustry, normJobTitle, normMessage,
    normCountry, normCompany, normMobile, normEmail, normLastName,
    normFirstName, apply_ite (fun o => jsGet o k), jsGet_setProp_eq,
    s1, s2, s3, s4, s5, s6, s7, s8, s9, s10, s11, s12, s13, s14, s15, s16, s17, s18, s19, s20, s21, s22, s23, s24, s25, s26, s27, s28, if_false, ite_self]

/-! ## Form submission and the sensitive-field denylist

Source: the `submit` listener (v1 filters five substrings and pushes the
raw field map; v2 filters eight substrings and normalizes), and the
cross-frame `message` listener (both versions: no filter at all — the
message payload is spread into the event data unchanged):

```
// v2 submit listener
for (let [key, value] of formData.entries()) {
  const lowerKey = key.toLowerCase();
  if (!lowerKey.includes('password') && !lowerKey.includes('pass') &&
      !lowerKey.includes('pwd') && !lowerKey.includes('credit') &&
      !lowerKey.includes('card') && !lowerKey.includes('cvv') &&
      !lowerKey.includes('ssn') && !lowerKey.includes('social')) {
    data[key] = value;
  }
}

// v2 message listener
if (e.data.event === 'form_submit') {
  const data = { form_name: e.data.form_name || 'frappe_form',
                 form_type: 'iframe', source: 'frappe_webform', ...e.data };
  pushToDataLayer('form_submit', normalizeFieldNames(data));
}
```
-/

/-- Boolean substring test on character lists. -/
def hasInfix : List Char → List Char → Bool
  | pat, [] => pat.isEmpty
  | pat, c :: rest => pat.isPrefixOf (c :: rest) || hasInfix pat rest

/-- `key.toLowerCase()` (ASCII, as used by the field names). -/
def lowerStr (s : String) : String := String.mk (s.toList.map Char.toLower)

/-- `s.includes(pat)`. -/
def strIncludes (s pat : String) : Bool := hasInfix pat.toList s.toList

/-- The v2 denylist substrings. -/
def sensitiveSubstrsV2 : List String :=
  ["password", "pass", "pwd", "credit", "card", "cvv", "ssn", "social"]

/-- The v1 denylist substrings (no `cvv`, `ssn`, `social`). -/
def sensitiveSubstrsV1 : List String :=
  ["password", "pass", "pwd", "credit", "card"]

/-- A field name the v2 submit listener drops. -/
def isSensitiveV2 (k : String) : Bool :=
  sensitiveSubstrsV2.any (fun pat => strIncludes (lowerStr k) pat)

/-- A field name the v1 submit listener drops. -/
def isSensitiveV1 (k : String) : Bool :=
  sensitiveSubstrsV1.any (fun pat => strIncludes (lowerStr k) pat)

/-- The `data` object the v2 submit listener builds: form metadata, then
every non-sensitive form field in entry order. -/
def formSubmitDataV2 (nameAttr idAttr actionAttr : String)
    (fields : List (String × String)) : Obj :=
  fields.foldl
    (fun acc kv =>
      if isSensitiveV2 kv.1 then acc else setProp acc kv.1 (.str kv.2))
    [("form_name", .str (strOr nameAttr (strOr idAttr "unknown_form"))),
     ("form_id", .str idAttr), ("form_action", .str actionAttr),
     ("form_type", .str "html")]

/-- The `data` object the v1 submit listener builds (no `form_type`, the
shorter denylist, and no normalization afterwards). -/
def formSubmitDataV1 (nameAttr idAttr actionAttr : String)
    (fields : List (String × String)) : Obj :=
  fields.foldl
    (fun acc kv =>
      if isSensitiveV1 kv.1 then acc else setProp acc kv.1 (.str kv.2))
    [("form_name", .str (strOr nameAttr (strOr idAttr "unknown_form"))),
     ("form_id", .str idAttr), ("form_action", .str actionAttr)]

/-- The payload the v2 native submit path appends to the data layer. -/
def emittedNativeV2 (tk env cid url title ref ts : String)
    (t : TrackingRecord) (a : AdInfo) (nameAttr idAttr actionAttr : String)
    (fields : List (String × String)) : Obj :=
  pushToDataLayerV2 tk env cid url title ref ts t a "form_submit"
    (normalizeFieldNames (formSubmitDataV2 nameAttr idAttr actionAttr fields))

/-- The payload the v1 native submit path appends to the data layer. -/
def emittedNativeV1 (org env cid url title ref ts : String)
    (t : TrackingRecord) (a : AdInfo) (nameAttr idAttr actionAttr : String)
    (fields : List (String × String)) : Obj :=
  pushToDataLayerV1 org env cid url title ref ts t a "form_submit"
    (formSubmitDataV1 nameAttr idAttr actionAttr fields)

/-- The `data` object the v2 message listener builds from a cross-frame
message whose `event` field is `form_submit`: fixed entries, then the
whole message spread over them — with no denylist filtering. -/
def iframeSubmitDataV2 (msg : Obj) : Obj :=
  [("form_name", jsOr (getProp msg "form_name") (.str "frappe_form")),
   ("form_type", .str "iframe"), ("source", .str "frappe_webform")] ++ msg

/-- The payload the v2 cross-frame submit path appends to the data
layer. -/
def emittedIframeV2 (tk env cid url title ref ts : String)
    (t : TrackingRecord) (a : AdInfo) (msg : Obj) : Obj :=
  pushToDataLayerV2 tk env cid url title ref ts t a "form_submit"
    (normalizeFieldNames (iframeSubmitDataV2 msg))

theorem not_mem_of_all_not_sensitiveV2 (k : String) (L : List String)
    (hk : isSensitiveV2 k = true)
    (hL : (L.all fun x => !isSensitiveV2 x) = true) : k ∉ L := by
  intro hm
  have := List.all_eq_true.mp hL k hm
  rw [hk] at this
  simp at this

theorem foldl_filter_none_v2 (k : String) (hk : isSensitiveV2 k = true) :
    ∀ (fields : List (String × String)) (acc : Obj), jsGet acc k = none →
      jsGet (fields.foldl
        (fun acc kv =>
          if isSensitiveV2 kv.1 then acc else setProp acc kv.1 (.str kv.2))
        acc) k = none := by
  intro fields
  induction fields with
  | nil => intro acc h; exact h
  | cons kv rest ih =>
    intro acc h
    rw [List.foldl_cons]
    by_cases hs : isSensitiveV2 kv.1 = true
    · rw [if_pos hs]
      exact ih acc h
    · rw [if_neg hs]
      apply ih
      rw [jsGet_setProp]
      have hne : kv.1 ≠ k := fun e => hs (e ▸ hk)
      simp [hne, h]

/-- Counterexample to C1: a cross-frame message carrying
`{event: 'form_submit', password: 'hunter2'}` passes the message
listener's only guard (`event` present and equal to `form_submit`), and
the emitted `form_submit` payload carries the `password` field verbatim —
the denylist is not applied on the cross-frame path. -/
theorem c1_counterexample_iframe_password :
    getProp [("event", JsVal.str "form_submit"),
      ("password", JsVal.str "hunter2")] "event" = JsVal.str "form_submit" ∧
    isSensitiveV2 "password" = true ∧
    jsGet (emittedIframeV2 "tk" "prod" "cid" "https://e/" "T" "" "ts"
      emptyTracking (detectAds emptyTracking)
      [("event", JsVal.str "form_submit"), ("password", JsVal.str "hunter2")])
      "password" = some (JsVal.str "hunter2") := by
  refine ⟨by decide, by decide, ?_⟩
  decide

/-- C1 as amended: the per-field denylist holds only on the native (HTML)
form-submission path.  On v2's native path every raw field whose
lowercased name contains one of the eight sensitive substrings is dropped
and never appears in the emitted `form_submit` payload (first clause, for
every form, field list and sensitive key).  On v1's native path only the
five substrings `password`/`pass`/`pwd`/`credit`/`card` are checked, so a
field named `cvv2` — sensitive per the claim's list — passes through
(remaining clauses).  The cross-frame path applies no filter at all (see
the counterexample). -/
theorem c1_sensitive_filter_amended :
    (∀ (tk env cid url title ref ts : String) (t : TrackingRecord)
       (a : AdInfo) (nameAttr idAttr actionAttr : String)
       (fields : List (String × String)) (k : String),
      isSensitiveV2 k = true →
      jsGet (emittedNativeV2 tk env cid url title ref ts t a nameAttr idAttr
        actionAttr fields) k = none) ∧
    isSensitiveV2 "cvv2" = true ∧
    isSensitiveV1 "cvv2" = false ∧
    jsGet (emittedNativeV1 "org" "prod" "cid" "https://e/" "T" "" "ts"
      emptyTracking (detectAds emptyTracking) "f" "" ""
      [("cvv2", "123")]) "cvv2" = some (JsVal.str "123") := by
  refine ⟨?_, by decide, by decide, by decide⟩
  intro tk env cid url title ref ts t a nameAttr idAttr actionAttr fields k hk
  have hdata : jsGet (formSubmitDataV2 nameAttr idAttr actionAttr fields) k = none := by
    apply foldl_filter_none_v2 k hk
    apply jsGet_none_of_fst_not_mem
    have hmap : ([(("form_name" : String), JsVal.str (strOr nameAttr (strOr idAttr "unknown_form"))),
        ("form_id", JsVal.str idAttr), ("form_action", JsVal.str actionAttr),
        ("form_type", JsVal.str "html")].map Prod.fst) =
        ["form_name", "form_id", "form_action", "form_type"] := rfl
    rw [hmap]
    exact not_mem_of_all_not_sensitiveV2 k _ hk (by decide)
  have hnorm : jsGet (normalizeFieldNames
      (formSubmitDataV2 nameAttr idAttr actionAttr fields)) k = none := by
    rw [nf_preserve _ _ (not_mem_of_all_not_sensitiveV2 k _ hk (by decide))]
    exact hdata
  have hbase : jsGet (envBaseV2 tk env cid url title ref ts "form_submit") k = none := by
    apply jsGet_none_of_fst_not_mem
    have hmap : ((envBaseV2 tk env cid url title ref ts "form_submit").map Prod.fst) =
        ["event", "activity_type", "tracking_key", "environment",
         "ga_client_id", "client_id", "page_url", "page_title",
         "page_referrer", "timestamp"] := rfl
    rw [hmap]
    exact not_mem_of_all_not_sensitiveV2 k _ hk (by decide)
  have htr : jsGet (trackingObj t) k = none := by
    apply jsGet_none_of_fst_not_mem
    have hmap : ((trackingObj t).map Prod.fst) =
        ["utm_source", "utm_medium", "utm_campaign", "utm_term",
         "utm_content", "utm_campaign_id", "fbclid", "gclid", "msclkid",
         "li_fat_id"] := rfl
    rw [hmap]
    exact not_mem_of_all_not_sensitiveV2 k _ hk (by decide)
  have had : jsGet (adObj a) k = none := by
    apply jsGet_none_of_fst_not_mem
    have hmap : ((adObj a).map Prod.fst) =
        ["ad_platform", "ad_click_id_type", "ad_click_id_value"] := rfl
    rw [hmap]
    exact not_mem_of_all_not_sensitiveV2 k _ hk (by decide)
  simp [emittedNativeV2, pushToDataLayerV2, jsGet_append, hnorm, hbase, htr, had]

/-- Witness for C1: the amended native-path clause instantiated at a
concrete form with a `password` field, which the v2 native path drops. -/
theorem c1_sensitive_filter_witness :
    jsGet (emittedNativeV2 "tk" "prod" "cid" "https://e/" "T" "" "ts"
      emptyTracking (detectAds emptyTracking) "f" "" ""
      [("username", "a"), ("password", "b")]) "password" = none :=
  c1_sensitive_filter_amended.1 "tk" "prod" "cid" "https://e/" "T" "" "ts"
    emptyTracking (detectAds emptyTracking) "f" "" ""
    [("username", "a"), ("password", "b")] "password" (by decide)

end ClientTracker
